import Mathlib

set_option maxRecDepth 4000
set_option maxHeartbeats 1000000

/-!
Verification development for the nova-mvp real-time audio conversation engine.

The definitions below are a shallow embedding of the Python sources:
  - bedrock_manager.py : BedrockStreamManager (session state machine, codec
    templates, send path, response dispatcher)
  - audio_streamer.py  : AudioStreamer (playback loop with barge-in flush)

Effectful Python methods become pure state transformers.  The network
transport is modelled by an oracle (net : Nat -> Bool) telling whether the
n-th send attempt on the stream succeeds; successfully transmitted events
are accumulated in the wire field, failed (caught and logged) sends in the
errs field.
-/

namespace Nova

/-- Event templates, transcribed byte for byte from BedrockStreamManager.
START_SESSION_EVENT, bedrock_manager.py lines 26-36. -/
def START_SESSION_EVENT : String :=
  "\x7b\n        \"event\": \x7b\n            \"sessionStart\": \x7b\n            \"inferenceConfiguration\": \x7b\n                \"maxTokens\": 1024,\n                \"topP\": 0.9,\n                \"temperature\": 0.7\n                \x7d\n            \x7d\n        \x7d\n    \x7d"

/-- START_PROMPT_EVENT template (lines 38-62) with the two percent-s holes
applied, exactly as Python percent-formatting does (single pass, values
spliced verbatim, no escaping). -/
def START_PROMPT_EVENT (promptName voiceId : String) : String :=
  "\x7b\n        \"event\": \x7b\n            \"promptStart\": \x7b\n            \"promptName\": \"" ++
  promptName ++
  "\",\n            \"textOutputConfiguration\": \x7b\n                \"mediaType\": \"text/plain\"\n                \x7d,\n            \"audioOutputConfiguration\": \x7b\n                \"mediaType\": \"audio/lpcm\",\n                \"sampleRateHertz\": 24000,\n                \"sampleSizeBits\": 16,\n                \"channelCount\": 1,\n                \"voiceId\": \"" ++
  voiceId ++
  "\",\n                \"encoding\": \"base64\",\n                \"audioType\": \"SPEECH\"\n                \x7d,\n            \"toolUseOutputConfiguration\": \x7b\n                \"mediaType\": \"application/json\"\n                \x7d,\n            \"toolConfiguration\": \x7b\n                \"tools\": []\n                \x7d\n            \x7d\n        \x7d\n    \x7d"

/-- CONTENT_START_EVENT template (lines 64-82), audio content start. -/
def CONTENT_START_EVENT (promptName contentName : String) : String :=
  "\x7b\n        \"event\": \x7b\n            \"contentStart\": \x7b\n            \"promptName\": \"" ++
  promptName ++
  "\",\n            \"contentName\": \"" ++
  contentName ++
  "\",\n            \"type\": \"AUDIO\",\n            \"interactive\": true,\n            \"role\": \"USER\",\n            \"audioInputConfiguration\": \x7b\n                \"mediaType\": \"audio/lpcm\",\n                \"sampleRateHertz\": 16000,\n                \"sampleSizeBits\": 16,\n                \"channelCount\": 1,\n                \"audioType\": \"SPEECH\",\n                \"encoding\": \"base64\"\n                \x7d\n            \x7d\n        \x7d\n    \x7d"

/-- AUDIO_EVENT_TEMPLATE (lines 84-92). -/
def AUDIO_EVENT_TEMPLATE (promptName contentName content : String) : String :=
  "\x7b\n        \"event\": \x7b\n            \"audioInput\": \x7b\n            \"promptName\": \"" ++
  promptName ++
  "\",\n            \"contentName\": \"" ++
  contentName ++
  "\",\n            \"content\": \"" ++
  content ++
  "\"\n            \x7d\n        \x7d\n    \x7d"

/-- TEXT_CONTENT_START_EVENT (lines 94-107). -/
def TEXT_CONTENT_START_EVENT (promptName contentName role : String) : String :=
  "\x7b\n        \"event\": \x7b\n            \"contentStart\": \x7b\n            \"promptName\": \"" ++
  promptName ++
  "\",\n            \"contentName\": \"" ++
  contentName ++
  "\",\n            \"role\": \"" ++
  role ++
  "\",\n            \"type\": \"TEXT\",\n            \"interactive\": true,\n                \"textInputConfiguration\": \x7b\n                    \"mediaType\": \"text/plain\"\n                \x7d\n            \x7d\n        \x7d\n    \x7d"

/-- TEXT_INPUT_EVENT (lines 109-117). -/
def TEXT_INPUT_EVENT (promptName contentName content : String) : String :=
  "\x7b\n        \"event\": \x7b\n            \"textInput\": \x7b\n            \"promptName\": \"" ++
  promptName ++
  "\",\n            \"contentName\": \"" ++
  contentName ++
  "\",\n            \"content\": \"" ++
  content ++
  "\"\n            \x7d\n        \x7d\n    \x7d"

/-- CONTENT_END_EVENT (lines 119-126). -/
def CONTENT_END_EVENT (promptName contentName : String) : String :=
  "\x7b\n        \"event\": \x7b\n            \"contentEnd\": \x7b\n            \"promptName\": \"" ++
  promptName ++
  "\",\n            \"contentName\": \"" ++
  contentName ++
  "\"\n            \x7d\n        \x7d\n    \x7d"

/-- PROMPT_END_EVENT (lines 128-134). -/
def PROMPT_END_EVENT (promptName : String) : String :=
  "\x7b\n        \"event\": \x7b\n            \"promptEnd\": \x7b\n            \"promptName\": \"" ++
  promptName ++
  "\"\n            \x7d\n        \x7d\n    \x7d"

/-- SESSION_END_EVENT (lines 136-140). -/
def SESSION_END_EVENT : String :=
  "\x7b\n        \"event\": \x7b\n            \"sessionEnd\": \x7b\x7d\n        \x7d\n    \x7d"

/-- State of a BedrockStreamManager instance (bedrock_manager.py, __init__
lines 142-169), restricted to the fields the session lifecycle reads or
writes.  wire records events whose transport send succeeded, in order;
errs records events whose send raised (the exception is caught and logged
inside send_raw_event, lines 258-262). -/
structure MgrState where
  streamOpen : Bool
  isActive : Bool
  sendCount : Nat
  wire : List String
  errs : List String
  subjectsDone : Bool
  taskCancelled : Bool
  transportClosed : Bool
  promptName : String
  contentName : String
  audioContentName : String
  systemPrompt : String
  voiceId : String
deriving DecidableEq

/-- A freshly constructed manager (init, lines 142-169): no stream yet,
inactive, nothing sent. -/
def freshMgr (promptName contentName audioContentName systemPrompt voiceId : String) : MgrState :=
  { streamOpen := false, isActive := false, sendCount := 0, wire := [], errs := []
    subjectsDone := false, taskCancelled := false, transportClosed := false
    promptName := promptName, contentName := contentName
    audioContentName := audioContentName, systemPrompt := systemPrompt, voiceId := voiceId }

/-- send_raw_event (lines 239-262).  Guard: if the stream is uninitialized
or the session inactive, log and return with no effect.  Otherwise attempt
the transport send; a raised exception is caught, logged, and pushed to
input_subject.on_error, and the method still returns normally. -/
def send_raw_event (net : Nat → Bool) (s : MgrState) (ev : String) : MgrState :=
  if s.streamOpen = false ∨ s.isActive = false then s
  else if net s.sendCount then
    { s with sendCount := s.sendCount + 1, wire := s.wire ++ [ev] }
  else
    { s with sendCount := s.sendCount + 1, errs := s.errs ++ [ev] }

/-- The five initialization events of initialize_stream (lines 200-206),
in program order. -/
def initEvents (s : MgrState) : List String :=
  [START_SESSION_EVENT,
   START_PROMPT_EVENT s.promptName s.voiceId,
   TEXT_CONTENT_START_EVENT s.promptName s.contentName "SYSTEM",
   TEXT_INPUT_EVENT s.promptName s.contentName s.systemPrompt,
   CONTENT_END_EVENT s.promptName s.contentName]

/-- initialize_stream (lines 188-237).  openOk models whether
invoke_model_with_bidirectional_stream succeeds.  On open failure the
except branch sets is_active to False and re-raises (Bool result true =
exception propagated to the caller).  On success is_active is set to True
at line 197, then the five init events are sent through send_raw_event. -/
def initialize_stream (openOk : Bool) (net : Nat → Bool) (s : MgrState) : MgrState × Bool :=
  if openOk = false then ({ s with isActive := false }, true)
  else
    let s1 := { s with streamOpen := true, isActive := true }
    ((initEvents s).foldl (send_raw_event net) s1, false)

/-- send_audio_content_start_event (lines 264-267): no guard of its own,
always delegates to send_raw_event with CONTENT_START_EVENT. -/
def send_audio_content_start_event (net : Nat → Bool) (s : MgrState) : MgrState :=
  send_raw_event net s (CONTENT_START_EVENT s.promptName s.audioContentName)

/-- send_audio_content_end_event (lines 299-307): no-op when inactive. -/
def send_audio_content_end_event (net : Nat → Bool) (s : MgrState) : MgrState :=
  if s.isActive = false then s
  else send_raw_event net s (CONTENT_END_EVENT s.promptName s.audioContentName)

/-- send_prompt_end_event (lines 309-317): no-op when inactive. -/
def send_prompt_end_event (net : Nat → Bool) (s : MgrState) : MgrState :=
  if s.isActive = false then s
  else send_raw_event net s (PROMPT_END_EVENT s.promptName)

/-- send_session_end_event (lines 319-327): no-op when inactive, otherwise
sends SESSION_END_EVENT and then clears is_active. -/
def send_session_end_event (net : Nat → Bool) (s : MgrState) : MgrState :=
  if s.isActive = false then s
  else
    let s1 := send_raw_event net s SESSION_END_EVENT
    { s1 with isActive := false }

/-- close (lines 400-418).  Early return when not active; otherwise it
completes the subjects, clears is_active, cancels the response task, calls
the three terminal-event senders, and closes the transport. -/
def close (net : Nat → Bool) (s : MgrState) : MgrState :=
  if s.isActive = false then s
  else
    let s1 := { s with subjectsDone := true, isActive := false, taskCancelled := true }
    let s2 := send_audio_content_end_event net s1
    let s3 := send_prompt_end_event net s2
    let s4 := send_session_end_event net s3
    if s4.streamOpen then { s4 with transportClosed := true } else s4

/-- The events among evs (attempted starting at send counter k) whose
transport send succeeds under net. -/
def okFilter (net : Nat → Bool) : Nat → List String → List String
  | _, [] => []
  | k, e :: es => if net k then e :: okFilter net (k + 1) es else okFilter net (k + 1) es

/-- The events among evs whose transport send raises under net. -/
def badFilter (net : Nat → Bool) : Nat → List String → List String
  | _, [] => []
  | k, e :: es => if net k then badFilter net (k + 1) es else e :: badFilter net (k + 1) es

/-- A concrete fresh manager used by concrete counterexample theorems. -/
def mgr0 : MgrState := freshMgr "p" "c" "a" "hello" "matthew"

/-- A concrete Active manager with an open stream, as left by a successful
startup, used by concrete counterexample and witness theorems. -/
def mgrActive : MgrState :=
  { mgr0 with streamOpen := true, isActive := true, sendCount := 5 }

/-- A transport oracle on which every send succeeds. -/
def netOk : Nat → Bool := fun _ => true

/-- A transport oracle on which every send raises. -/
def netBad : Nat → Bool := fun _ => false

/-- The standard base64 alphabet, as used by base64.b64encode. -/
def b64alphabet : List Char :=
  "ABCDEFGHIJKLMNOPQRSTUVWXYZabcdefghijklmnopqrstuvwxyz0123456789+/".data

/-- The base64 digit for a 6-bit value. -/
def b64c (n : Nat) : Char := b64alphabet.getD n 'A'

/-- base64.b64encode on a byte list (each Nat taken mod 256 implicitly by
construction; inputs are bytes). -/
def b64encode : List Nat → List Char
  | [] => []
  | [a] => [b64c (a / 4), b64c (a % 4 * 16), '=', '=']
  | [a, b] => [b64c (a / 4), b64c (a % 4 * 16 + b / 16), b64c (b % 16 * 4), '=']
  | a :: b :: c :: rest =>
      [b64c (a / 4), b64c (a % 4 * 16 + b / 16), b64c (b % 16 * 4 + c / 64), b64c (c % 64)]
        ++ b64encode rest

/-- handle_audio_input (lines 269-289): drop empty chunks, otherwise
base64-encode and delegate to send_raw_event; its own try/except swallows
any processing error. -/
def handle_audio_input (net : Nat → Bool) (s : MgrState) (audioBytes : List Nat) : MgrState :=
  if audioBytes = [] then s
  else send_raw_event net s
    (AUDIO_EVENT_TEMPLATE s.promptName s.audioContentName (String.mk (b64encode audioBytes)))

/-!
Playback pipeline (audio_streamer.py, play_output_audio, lines 83-138),
together with the shared manager state it reads: the playback queue
(audio_output_queue) and the barge-in flag.  The single asyncio event loop
interleaves the dispatcher (which enqueues buffers and sets the flag) with
playback-loop iterations only at await points; the drain-and-clear in
lines 88-95 contains no await, so it is atomic with respect to the
dispatcher.  We therefore model an execution as a sequence of atomic
actions: an enqueue by the dispatcher, the setting of the barge-in flag,
the stop_streaming signal, and one full playback-loop iteration.
-/

/-- Shared playback state: the queue and barge-in flag of the manager, the
streaming flag and device state of the AudioStreamer, plus ghost fields
recording which buffers were played, which were discarded by a barge-in
flush, and how many playback errors were caught and logged. -/
structure PbState where
  queue : List (List Nat)
  bargeIn : Bool
  played : List (List Nat)
  discarded : List (List Nat)
  isStreaming : Bool
  deviceActive : Bool
  errLog : Nat
deriving DecidableEq

/-- One atomic step of the interleaved system. -/
inductive PbAction where
  | enq (b : List Nat)
  | setBarge
  | stop
  | iter (writeOk : Bool)
deriving DecidableEq

/-- The body of one playback-loop iteration (lines 86-130) without the
enclosing generic except handler: returns the state reached and whether an
exception escaped the body (a device write error while streaming).
First the barge-in flag is checked: if set, every currently queued buffer
is drained and discarded and the flag is cleared (lines 88-95).  Otherwise
the bounded-timeout get either times out (no change, line 131) or yields
the head buffer, which is written to the device only when streaming is
still on and the device is active (line 106); writeOk models whether the
device write raises. -/
def iterBody (s : PbState) (writeOk : Bool) : PbState × Bool :=
  if s.bargeIn then
    ({ s with queue := [], bargeIn := false, discarded := s.discarded ++ s.queue }, false)
  else
    match s.queue with
    | [] => (s, false)
    | b :: rest =>
      if s.isStreaming ∧ s.deviceActive then
        if writeOk then ({ s with queue := rest, played := s.played ++ [b] }, false)
        else ({ s with queue := rest }, true)
      else ({ s with queue := rest }, false)

/-- One playback-loop iteration with the generic except handler (lines
134-138): an escaping exception is caught, logged (the log message is
printed only while streaming, but the catch happens regardless), and the
loop continues. -/
def pbIter (s : PbState) (writeOk : Bool) : PbState :=
  match iterBody s writeOk with
  | (s2, false) => s2
  | (s2, true) => { s2 with errLog := s2.errLog + 1 }

/-- One step of the interleaved system.  An iter action does nothing once
isStreaming is false, because the while-loop at line 85 has then exited. -/
def pbStep (s : PbState) (a : PbAction) : PbState :=
  match a with
  | .enq b => { s with queue := s.queue ++ [b] }
  | .setBarge => { s with bargeIn := true }
  | .stop => { s with isStreaming := false }
  | .iter writeOk => if s.isStreaming then pbIter s writeOk else s

/-- Run a sequence of atomic actions. -/
def pbRun (s : PbState) (acts : List PbAction) : PbState :=
  acts.foldl pbStep s

/-- Actions that occur strictly after a single barge-in marker in a normal
run: dispatcher enqueues and successful playback iterations only (no
second barge-in marker, no stop, no device failure). -/
def postFlushAct (a : PbAction) : Prop :=
  (∃ b, a = PbAction.enq b) ∨ a = PbAction.iter true

instance : DecidablePred postFlushAct := by
  intro a
  cases a with
  | enq b => exact isTrue (Or.inl ⟨b, rfl⟩)
  | setBarge => exact isFalse (by rintro (⟨b, h⟩ | h) <;> simp_all [postFlushAct])
  | stop => exact isFalse (by rintro (⟨b, h⟩ | h) <;> simp_all [postFlushAct])
  | iter w =>
    cases w with
    | true => exact isTrue (Or.inr rfl)
    | false => exact isFalse (by rintro (⟨b, h⟩ | h) <;> simp_all [postFlushAct])

/-- The buffers enqueued by a sequence of actions, in order. -/
def enqList (acts : List PbAction) : List (List Nat) :=
  acts.filterMap (fun a => match a with | .enq b => some b | _ => none)

/-- A concrete playback state used by witness theorems: two buffers
queued, barge-in flag set, streaming with an active device. -/
def pb0 : PbState :=
  { queue := [[1], [2]], bargeIn := true, played := [], discarded := []
    isStreaming := true, deviceActive := true, errLog := 0 }

/-- The same concrete playback state with the barge-in flag down. -/
def pb1 : PbState := { pb0 with bargeIn := false }

/-!
JSON values and a JSON text parser.

The decode side of the protocol codec is json.loads: the dispatcher uses
it on additionalModelFields (bedrock_manager.py line 351), and the wire
schema of spec section 6 is JSON, decoded by the remote peer.  Modelled
from the spec: the wire-schema decoder itself is not part of src/ (only
the encoder templates are), so decoding is embedded as a standard JSON
parser over character lists.  Numbers are kept as raw lexemes (their
numeric value is irrelevant to every claim).  The nesting-depth fuel of
parseVal is the input length plus one, which bounds the nesting depth of
any input. -/
inductive Json where
  | str (s : List Char)
  | num (lexeme : List Char)
  | bool (b : Bool)
  | null
  | arr (elems : List Json)
  | obj (fields : List (List Char × Json))

/-- The double-quote character. -/
abbrev qchar : Char := '\x22'

/-- The backslash character. -/
abbrev bslash : Char := '\x5c'

/-- Opening brace. -/
abbrev lbrace : Char := '\x7b'

/-- Closing brace. -/
abbrev rbrace : Char := '\x7d'

/-- Opening bracket. -/
abbrev lbrack : Char := '\x5b'

/-- Closing bracket. -/
abbrev rbrack : Char := '\x5d'

/-- JSON insignificant whitespace. -/
def isWsC (c : Char) : Bool :=
  c = ' ' ∨ c = '\n' ∨ c = '\t' ∨ c = '\r'

/-- Skip insignificant whitespace. -/
def skipWs : List Char → List Char
  | [] => []
  | c :: rest => if isWsC c then skipWs rest else c :: rest

/-- Value of a hexadecimal digit. -/
def hexVal (c : Char) : Option Nat :=
  if c.isDigit then some (c.toNat - 48)
  else if 97 ≤ c.toNat ∧ c.toNat ≤ 102 then some (c.toNat - 87)
  else if 65 ≤ c.toNat ∧ c.toNat ≤ 70 then some (c.toNat - 55)
  else none

/-- Single-character JSON string escapes. -/
def escChar (e : Char) : Option Char :=
  if e = qchar then some qchar
  else if e = bslash then some bslash
  else if e = '/' then some '/'
  else if e = 'n' then some '\n'
  else if e = 't' then some '\t'
  else if e = 'r' then some '\r'
  else if e = 'b' then some (Char.ofNat 8)
  else if e = 'f' then some (Char.ofNat 12)
  else none

/-- Parse the body of a JSON string literal (after the opening quote) up
to and including the closing quote, handling escapes; raw control
characters are rejected, as json.loads does in strict mode. -/
def parseStrBody : List Char → Option (List Char × List Char)
  | [] => none
  | c :: rest =>
    if c = qchar then some ([], rest)
    else if c = bslash then
      match rest with
      | [] => none
      | e :: rest2 =>
        if e = 'u' then
          match rest2 with
          | h1 :: h2 :: h3 :: h4 :: rest3 =>
            match hexVal h1, hexVal h2, hexVal h3, hexVal h4 with
            | some a, some b, some c2, some d =>
              match parseStrBody rest3 with
              | some (content, r) =>
                  some (Char.ofNat (4096 * a + 256 * b + 16 * c2 + d) :: content, r)
              | none => none
            | _, _, _, _ => none
          | _ => none
        else
          match escChar e with
          | some ec =>
            match parseStrBody rest2 with
            | some (content, r) => some (ec :: content, r)
            | none => none
          | none => none
    else if c.toNat < 32 then none
    else
      match parseStrBody rest with
      | some (content, r) => some (c :: content, r)
      | none => none

/-- Characters that may appear in a number lexeme. -/
def isNumChar (c : Char) : Bool :=
  c.isDigit || c = '-' || c = '+' || c = '.' || c = 'e' || c = 'E'

/-- Take the longest run of number-lexeme characters. -/
def takeNum : List Char → List Char × List Char
  | [] => ([], [])
  | c :: rest =>
    if isNumChar c then
      match takeNum rest with
      | (lex, r) => (c :: lex, r)
    else ([], c :: rest)

/-- Dispatch on the whitespace-skipped input of an object-member parser:
pv parses member values, next parses the members after a comma. -/
def parseMembersCore (pv : List Char → Option (Json × List Char))
    (next : List Char → Option (List (List Char × Json) × List Char)) :
    List Char → Option (List (List Char × Json) × List Char)
  | [] => none
  | c :: rest =>
    if c = rbrace then some ([], rest)
    else if c = qchar then
      match parseStrBody rest with
      | none => none
      | some (key, r2) =>
        match skipWs r2 with
        | ch :: r3 =>
          if ch = ':' then
            match pv r3 with
            | none => none
            | some (v, r4) =>
              match skipWs r4 with
              | c2 :: r5 =>
                if c2 = ',' then
                  match next r5 with
                  | some (fs, r6) => some ((key, v) :: fs, r6)
                  | none => none
                else if c2 = rbrace then some ([(key, v)], r5)
                else none
              | [] => none
          else none
        | [] => none
    else none

/-- Parse the members of a JSON object (after the opening brace), with pv
parsing the member values; the Nat fuel bounds the member count and is
instantiated with the input length plus one, which every input satisfies. -/
def parseMembersF (pv : List Char → Option (Json × List Char)) :
    Nat → List Char → Option (List (List Char × Json) × List Char)
  | 0, _ => none
  | n + 1, s => parseMembersCore pv (parseMembersF pv n) (skipWs s)

/-- Dispatch on the whitespace-skipped input of an array-element parser. -/
def parseElemsCore (pv : List Char → Option (Json × List Char))
    (next : List Char → Option (List Json × List Char)) :
    List Char → Option (List Json × List Char)
  | [] => none
  | c :: rest =>
    if c = rbrack then some ([], rest)
    else
      match pv (c :: rest) with
      | none => none
      | some (v, r2) =>
        match skipWs r2 with
        | c2 :: r3 =>
          if c2 = ',' then
            match next r3 with
            | some (vs, r4) => some (v :: vs, r4)
            | none => none
          else if c2 = rbrack then some ([v], r3)
          else none
        | [] => none

/-- Parse the elements of a JSON array (after the opening bracket). -/
def parseElemsF (pv : List Char → Option (Json × List Char)) :
    Nat → List Char → Option (List Json × List Char)
  | 0, _ => none
  | n + 1, s => parseElemsCore pv (parseElemsF pv n) (skipWs s)

/-- Dispatch on the whitespace-skipped input of the value parser. -/
def parseValCore (pv : List Char → Option (Json × List Char)) :
    List Char → Option (Json × List Char)
  | [] => none
  | c :: rest =>
    if c = qchar then
      match parseStrBody rest with
      | some (cs, r) => some (Json.str cs, r)
      | none => none
    else if c = lbrace then
      match parseMembersF pv (rest.length + 1) rest with
      | some (fs, r) => some (Json.obj fs, r)
      | none => none
    else if c = lbrack then
      match parseElemsF pv (rest.length + 1) rest with
      | some (vs, r) => some (Json.arr vs, r)
      | none => none
    else if c = 't' then
      match rest with
      | 'r' :: 'u' :: 'e' :: r => some (Json.bool true, r)
      | _ => none
    else if c = 'f' then
      match rest with
      | 'a' :: 'l' :: 's' :: 'e' :: r => some (Json.bool false, r)
      | _ => none
    else if c = 'n' then
      match rest with
      | 'u' :: 'l' :: 'l' :: r => some (Json.null, r)
      | _ => none
    else if c.isDigit || c = '-' then
      match takeNum (c :: rest) with
      | (lex, r) => some (Json.num lex, r)
    else none

/-- One layer of JSON value parsing, with pv parsing nested values. -/
def parseValStep (pv : List Char → Option (Json × List Char)) (s : List Char) :
    Option (Json × List Char) :=
  parseValCore pv (skipWs s)

/-- JSON value parser with explicit nesting-depth fuel. -/
def parseVal : Nat → List Char → Option (Json × List Char)
  | 0 => fun _ => none
  | d + 1 => parseValStep (parseVal d)

/-- json.loads: parse a complete JSON document; anything but trailing
whitespace after the value is an error.  The nesting-depth fuel
s.length + 7 exceeds the nesting depth of any input (depth is at most the
input length), so the fuel never cuts a parse short. -/
def decode (s : String) : Option Json :=
  match parseVal (s.length + 7) s.data with
  | some (j, rest) => if skipWs rest = [] then some j else none
  | none => none

/-- Last-wins association lookup, matching the semantics of a Python dict
built by json.loads (duplicate keys: the last occurrence wins). -/
def lookupJ (fields : List (List Char × Json)) (key : List Char) : Option Json :=
  fields.foldl (fun acc p => if p.1 = key then some p.2 else acc) none

/-- additional_fields.get of the generation stage compared with the
speculative marker (bedrock_manager.py line 352): true exactly when the
key is present and its value is the JSON string SPECULATIVE. -/
def genStageIsSpeculative (fields : List (List Char × Json)) : Bool :=
  match lookupJ fields ("generationStage".data) with
  | some (Json.str v) => v = "SPECULATIVE".data
  | _ => false

/-!
Wire-schema round-trip infrastructure for the protocol codec.  The
encoder is percent-formatting of the templates above: values are spliced
verbatim with no escaping.  safeC characterises the characters that
survive such splicing inside a JSON string literal; a rendering relation
RendD connects a Json value with the texts that serialise it (with the
whitespace freedom the templates use), and the round-trip theorem shows
the parser recovers the value from any rendering. -/

/-- A character that percent-splicing keeps JSON-safe: not the quote, not
the backslash, not a control character. -/
def safeC (c : Char) : Prop := c ≠ qchar ∧ c ≠ bslash ∧ 32 ≤ c.toNat

instance : DecidablePred safeC := fun _ => by unfold safeC; infer_instance

/-- All characters of a string are splice-safe. -/
def safeStr (s : String) : Prop := ∀ c ∈ s.data, safeC c

instance : DecidablePred safeStr := fun _ => by unfold safeStr; infer_instance

/-- All characters are JSON whitespace. -/
def allWs (w : List Char) : Prop := ∀ c ∈ w, isWsC c = true

instance : DecidablePred allWs := fun _ => by unfold allWs; infer_instance

/-- A well-started number lexeme: nonempty, starts with a digit or minus,
and every character is a number-lexeme character. -/
def validNumLex (l : List Char) : Prop :=
  match l with
  | [] => False
  | c :: _ => (c.isDigit = true ∨ c = '-') ∧ ∀ x ∈ l, isNumChar x = true

instance : DecidablePred validNumLex := fun l => by
  cases l with
  | nil => exact isFalse (fun h => h)
  | cons c cs =>
    exact inferInstanceAs
      (Decidable ((c.isDigit = true ∨ c = '-') ∧ ∀ x ∈ c :: cs, isNumChar x = true))

/-- The continuation does not start with a number-lexeme character (so a
number parse stops exactly at the boundary). -/
def numOk (rest : List Char) : Prop :=
  match rest with
  | [] => True
  | c :: _ => isNumChar c = false

/-- Renderings of primitive JSON values. -/
def primRend (j : Json) (s : List Char) : Prop :=
  match j with
  | Json.str content => (∀ c ∈ content, safeC c) ∧ s = qchar :: (content ++ [qchar])
  | Json.num lex => validNumLex lex ∧ s = lex
  | Json.bool true => s = 't' :: 'r' :: 'u' :: 'e' :: []
  | Json.bool false => s = 'f' :: 'a' :: 'l' :: 's' :: 'e' :: []
  | Json.null => s = 'n' :: 'u' :: 'l' :: 'l' :: []
  | _ => False

/-- Renderings of the member list of a JSON object, from just after the
opening brace up to and including the closing brace.  RV is the rendering
relation for member values.  Whitespace is allowed before a key, after a
value, and (via the value parser itself) after the colon; the templates
never put whitespace between a key and its colon nor before the comma of
a non-final member, so those positions are fixed. -/
def RendMs (RV : Json → List Char → Prop) : List (List Char × Json) → List Char → Prop
  | [], inner => ∃ w, allWs w ∧ inner = w ++ [rbrace]
  | (k, v) :: fs2, inner => ∃ w1 wc vs w3 t2,
      allWs w1 ∧ (∀ c ∈ k, safeC c) ∧ allWs wc ∧ RV v vs ∧ allWs w3 ∧
      inner = w1 ++ qchar :: (k ++ qchar :: (':' :: (wc ++ (vs ++ (w3 ++ t2))))) ∧
      (match fs2 with
       | [] => t2 = [rbrace]
       | _ :: _ => ∃ t3, t2 = ',' :: t3 ∧ RendMs RV fs2 t3)

/-- Renderings of the element list of a JSON array, from just after the
opening bracket up to and including the closing bracket. -/
def RendEs (RV : Json → List Char → Prop) : List Json → List Char → Prop
  | [], inner => ∃ w, allWs w ∧ inner = w ++ [rbrack]
  | v :: vs2, inner => ∃ es w2 t2,
      RV v es ∧ allWs w2 ∧
      inner = es ++ (w2 ++ t2) ∧
      (match vs2 with
       | [] => t2 = [rbrack]
       | _ :: _ => ∃ t3, t2 = ',' :: t3 ∧ RendEs RV vs2 t3)

/-- Renderings of a JSON value with object/array nesting depth at most d.
No leading or trailing whitespace: that belongs to the context. -/
def RendD : Nat → Json → List Char → Prop
  | 0, j, s => primRend j s
  | d + 1, j, s =>
      primRend j s ∨
      (∃ fs inner, j = Json.obj fs ∧ s = lbrace :: inner ∧ RendMs (RendD d) fs inner) ∨
      (∃ vs inner, j = Json.arr vs ∧ s = lbrack :: inner ∧ RendEs (RendD d) vs inner)

/-- The rendering of a spliced string value. -/
def strRend (v : String) : List Char := qchar :: (v.data ++ [qchar])

/-- The outbound event kinds of the wire schema (spec section 6). -/
inductive EventKind where
  | sessionStart
  | promptStart
  | contentStartText
  | textInput
  | contentStartAudio
  | audioInput
  | contentEnd
  | promptEnd
  | sessionEnd
deriving DecidableEq

/-- The field values a caller chooses when encoding an event; each kind
uses the subset relevant to it. -/
structure Fields where
  promptName : String
  contentName : String
  content : String
  role : String
  voiceId : String

/-- Encode an event of the given kind through the codec templates, exactly
as the call sites of bedrock_manager.py do. -/
def encodeEvent : EventKind → Fields → String
  | EventKind.sessionStart, _ => START_SESSION_EVENT
  | EventKind.promptStart, F => START_PROMPT_EVENT F.promptName F.voiceId
  | EventKind.contentStartText, F => TEXT_CONTENT_START_EVENT F.promptName F.contentName F.role
  | EventKind.textInput, F => TEXT_INPUT_EVENT F.promptName F.contentName F.content
  | EventKind.contentStartAudio, F => CONTENT_START_EVENT F.promptName F.contentName
  | EventKind.audioInput, F => AUDIO_EVENT_TEMPLATE F.promptName F.contentName F.content
  | EventKind.contentEnd, F => CONTENT_END_EVENT F.promptName F.contentName
  | EventKind.promptEnd, F => PROMPT_END_EVENT F.promptName
  | EventKind.sessionEnd, _ => SESSION_END_EVENT

/-- The JSON document an encoded event denotes, member for member in
template order; the required fields of the wire schema appear with the
caller-chosen values. -/
def expectedJson : EventKind → Fields → Json
  | EventKind.sessionStart, _ =>
    Json.obj [("event".data, Json.obj [("sessionStart".data, Json.obj
      [("inferenceConfiguration".data, Json.obj
        [("maxTokens".data, Json.num "1024".data),
         ("topP".data, Json.num "0.9".data),
         ("temperature".data, Json.num "0.7".data)])])])]
  | EventKind.promptStart, F =>
    Json.obj [("event".data, Json.obj [("promptStart".data, Json.obj
      [("promptName".data, Json.str F.promptName.data),
       ("textOutputConfiguration".data, Json.obj
         [("mediaType".data, Json.str "text/plain".data)]),
       ("audioOutputConfiguration".data, Json.obj
         [("mediaType".data, Json.str "audio/lpcm".data),
          ("sampleRateHertz".data, Json.num "24000".data),
          ("sampleSizeBits".data, Json.num "16".data),
          ("channelCount".data, Json.num "1".data),
          ("voiceId".data, Json.str F.voiceId.data),
          ("encoding".data, Json.str "base64".data),
          ("audioType".data, Json.str "SPEECH".data)]),
       ("toolUseOutputConfiguration".data, Json.obj
         [("mediaType".data, Json.str "application/json".data)]),
       ("toolConfiguration".data, Json.obj
         [("tools".data, Json.arr [])])])])]
  | EventKind.contentStartText, F =>
    Json.obj [("event".data, Json.obj [("contentStart".data, Json.obj
      [("promptName".data, Json.str F.promptName.data),
       ("contentName".data, Json.str F.contentName.data),
       ("role".data, Json.str F.role.data),
       ("type".data, Json.str "TEXT".data),
       ("interactive".data, Json.bool true),
       ("textInputConfiguration".data, Json.obj
         [("mediaType".data, Json.str "text/plain".data)])])])]
  | EventKind.textInput, F =>
    Json.obj [("event".data, Json.obj [("textInput".data, Json.obj
      [("promptName".data, Json.str F.promptName.data),
       ("contentName".data, Json.str F.contentName.data),
       ("content".data, Json.str F.content.data)])])]
  | EventKind.contentStartAudio, F =>
    Json.obj [("event".data, Json.obj [("contentStart".data, Json.obj
      [("promptName".data, Json.str F.promptName.data),
       ("contentName".data, Json.str F.contentName.data),
       ("type".data, Json.str "AUDIO".data),
       ("interactive".data, Json.bool true),
       ("role".data, Json.str "USER".data),
       ("audioInputConfiguration".data, Json.obj
         [("mediaType".data, Json.str "audio/lpcm".data),
          ("sampleRateHertz".data, Json.num "16000".data),
          ("sampleSizeBits".data, Json.num "16".data),
          ("channelCount".data, Json.num "1".data),
          ("audioType".data, Json.str "SPEECH".data),
          ("encoding".data, Json.str "base64".data)])])])]
  | EventKind.audioInput, F =>
    Json.obj [("event".data, Json.obj [("audioInput".data, Json.obj
      [("promptName".data, Json.str F.promptName.data),
       ("contentName".data, Json.str F.contentName.data),
       ("content".data, Json.str F.content.data)])])]
  | EventKind.contentEnd, F =>
    Json.obj [("event".data, Json.obj [("contentEnd".data, Json.obj
      [("promptName".data, Json.str F.promptName.data),
       ("contentName".data, Json.str F.contentName.data)])])]
  | EventKind.promptEnd, F =>
    Json.obj [("event".data, Json.obj [("promptEnd".data, Json.obj
      [("promptName".data, Json.str F.promptName.data)])])]
  | EventKind.sessionEnd, _ =>
    Json.obj [("event".data, Json.obj [("sessionEnd".data, Json.obj [])])]

/-- All five choosable field values are splice-safe. -/
def safeFields (F : Fields) : Prop :=
  safeStr F.promptName ∧ safeStr F.contentName ∧ safeStr F.content ∧
  safeStr F.role ∧ safeStr F.voiceId

instance : DecidablePred safeFields := fun _ => by unfold safeFields; infer_instance

/-- Concrete field values used by witness theorems. -/
def fieldsEx : Fields :=
  { promptName := "p", contentName := "c", content := "hello", role := "SYSTEM"
    voiceId := "matthew" }

/-- Field values whose content is a single double-quote character. -/
def fieldsQuote : Fields := { fieldsEx with content := "\x22" }

/-!
Response dispatcher (_process_responses, bedrock_manager.py lines
329-397).  Inbound transport results are either a decoded message, an
end-of-stream signal (StopAsyncIteration) or a fatal receive error.  A
decoded message is either a structured event (the json.loads succeeded
and the event envelope was inspected) or raw non-JSON bytes (the
JSONDecodeError path, line 383).  What observers of output_subject see is
recorded as a list of emissions; per Rx semantics a stopped subject
ignores further signals. -/
inductive InEvent where
  | contentStart (role : String) (additionalModelFields : Option String)
  | contentEnd
  | textOutput (content : String)
  | audioOutput (content : String)
  | other
deriving DecidableEq

/-- A decoded inbound message: a structured event, or raw bytes that were
not valid JSON. -/
inductive InMsg where
  | evt (e : InEvent)
  | nonJson (raw : String)
deriving DecidableEq

/-- One inbound transport result. -/
inductive Recv where
  | msg (m : InMsg)
  | eos
  | fatal
deriving DecidableEq

/-- A signal visible to output_subject observers. -/
inductive Emission where
  | onNextEvt (e : InEvent)
  | onNextRaw (raw : String)
  | onError
  | onCompleted
deriving DecidableEq

/-- Dispatcher-visible state: the is_active flag, the role/display-text
toggles, the barge-in flag and playback queue it writes, the console
lines it prints, and the output_subject emission log. -/
structure DispState where
  isActive : Bool
  role : Option String
  displayAssistantText : Bool
  bargeIn : Bool
  audioQueue : List (List Nat)
  printed : List String
  emits : List Emission
  subjectStopped : Bool
deriving DecidableEq

/-- Push a signal to output_subject: a stopped Rx subject ignores all
further signals; on_error and on_completed stop the subject. -/
def emitD (s : DispState) (e : Emission) : DispState :=
  if s.subjectStopped then s
  else
    match e with
    | Emission.onError => { s with emits := s.emits ++ [e], subjectStopped := true }
    | Emission.onCompleted => { s with emits := s.emits ++ [e], subjectStopped := true }
    | _ => { s with emits := s.emits ++ [e] }

/-- The embedded interruption marker searched for in textOutput content
(line 364). -/
def interruptedMarker : String := "\x7b \"interrupted\" : true \x7d"

/-- Does the text start with the marker? -/
def startsWith : List Char → List Char → Bool
  | [], _ => true
  | _ :: _, [] => false
  | m :: ms, t :: ts => m = t && startsWith ms ts

/-- The Python in-operator on strings: contiguous substring containment. -/
def containsSub (marker : List Char) : List Char → Bool
  | [] => marker.isEmpty
  | t :: ts => startsWith marker (t :: ts) || containsSub marker ts

/-- Base64 digit value. -/
def b64idx : List Char → Char → Option Nat
  | [], _ => none
  | a :: rest, c => if a = c then some 0 else (b64idx rest c).map (· + 1)

/-- Reassemble bytes from 6-bit groups. -/
def b64chunks : List Nat → List Nat
  | a :: b :: c :: d :: rest =>
      (a * 4 + b / 16) :: (b % 16 * 16 + c / 4) :: (c % 4 * 64 + d) :: b64chunks rest
  | [a, b] => [a * 4 + b / 16]
  | [a, b, c] => [a * 4 + b / 16, b % 16 * 16 + c / 4]
  | _ => []

/-- base64.b64decode (best effort: non-alphabet characters, including
padding, are dropped before decoding). -/
def b64decode (s : List Char) : List Nat :=
  b64chunks (s.filterMap (b64idx b64alphabet))

/-- Handling of one structured inbound event (lines 342-380).  Returns
the new state and whether an exception escaped the handler: json.loads of
additionalModelFields succeeding with a non-object makes the subsequent
attribute access raise, and that exception is not caught by the inner
except (which only catches JSONDecodeError, line 357). -/
def processEvent (s : DispState) (e : InEvent) : DispState × Bool :=
  match e with
  | InEvent.contentStart r amf =>
    let s1 := { s with role := some r }
    match amf with
    | none => (s1, false)
    | some str =>
      match decode str with
      | none => (s1, false)
      | some (Json.obj fields) =>
          ({ s1 with displayAssistantText := genStageIsSpeculative fields }, false)
      | some _ => (s1, true)
  | InEvent.contentEnd => (s, false)
  | InEvent.textOutput content =>
    let s1 :=
      if containsSub interruptedMarker.data content.data then { s with bargeIn := true } else s
    let s2 :=
      if s1.role = some "ASSISTANT" ∧ s1.displayAssistantText = true then
        { s1 with printed := s1.printed ++ ["Assistant: " ++ content] }
      else if s1.role = some "USER" then
        { s1 with printed := s1.printed ++ ["User: " ++ content] }
      else s1
    (s2, false)
  | InEvent.audioOutput content =>
      ({ s with audioQueue := s.audioQueue ++ [b64decode content.data] }, false)
  | InEvent.other => (s, false)

/-- Handling of one decoded inbound message: raw non-JSON bytes are
forwarded as an opaque raw event (line 384); a structured event is
handled and then forwarded on on_next (line 382) unless its handler
raised. -/
def processMsg (s : DispState) (m : InMsg) : DispState × Bool :=
  match m with
  | InMsg.nonJson raw => (emitD s (Emission.onNextRaw raw), false)
  | InMsg.evt e =>
    match processEvent s e with
    | (s2, false) => (emitD s2 (Emission.onNextEvt e), false)
    | (s2, true) => (s2, true)

/-- The finally block (lines 395-397): if is_active is still true, the
subject is completed. -/
def finalizeD (s : DispState) : DispState :=
  if s.isActive = true then emitD s Emission.onCompleted else s

/-- The dispatcher read loop (lines 329-397) over a list of inbound
transport results.  The while condition re-checks is_active; an exhausted
input list leaves the loop blocked awaiting the transport (no exit, no
finally).  End-of-stream breaks out of the loop; a fatal receive error or
an escaped handler exception pushes on_error and breaks; in every exit
path the finally block then runs. -/
def runLoop : DispState → List Recv → DispState
  | s, ins =>
    if s.isActive = false then finalizeD s
    else
      match ins with
      | [] => s
      | Recv.eos :: _ => finalizeD s
      | Recv.fatal :: _ => finalizeD (emitD s Emission.onError)
      | Recv.msg m :: rest =>
        match processMsg s m with
        | (s2, false) => runLoop s2 rest
        | (s2, true) => finalizeD (emitD s2 Emission.onError)

/-- A concrete dispatcher state for a freshly Active session. -/
def disp0 : DispState :=
  { isActive := true, role := none, displayAssistantText := false, bargeIn := false
    audioQueue := [], printed := [], emits := [], subjectStopped := false }

/-- The same concrete state with the display toggle on. -/
def dispShow : DispState := { disp0 with displayAssistantText := true }

end Nova

namespace Nova

theorem sendSeq_run (net : Nat → Bool) (evs : List String) :
    ∀ s : MgrState, s.streamOpen = true → s.isActive = true →
    evs.foldl (send_raw_event net) s =
      { s with sendCount := s.sendCount + evs.length,
               wire := s.wire ++ okFilter net s.sendCount evs,
               errs := s.errs ++ badFilter net s.sendCount evs } := by
  induction evs with
  | nil => intro s hso hia; simp [okFilter, badFilter]
  | cons e es ih =>
    intro s hso hia
    have hguard : ¬(s.streamOpen = false ∨ s.isActive = false) := by
      simp [hso, hia]
    by_cases hnet : net s.sendCount
    · rw [List.foldl_cons]
      rw [show send_raw_event net s e =
          { s with sendCount := s.sendCount + 1, wire := s.wire ++ [e] } by
        simp [send_raw_event, hguard, hnet]]
      rw [ih _ (by simp [hso]) (by simp [hia])]
      simp [okFilter, badFilter, hnet, Nat.add_assoc, Nat.add_comm 1 es.length]
    · rw [List.foldl_cons]
      rw [show send_raw_event net s e =
          { s with sendCount := s.sendCount + 1, errs := s.errs ++ [e] } by
        simp [send_raw_event, hguard, hnet]]
      rw [ih _ (by simp [hso]) (by simp [hia])]
      simp [okFilter, badFilter, hnet, Nat.add_assoc, Nat.add_comm 1 es.length]

theorem skipWs_concat {w : List Char} (hw : allWs w) (s : List Char) :
    skipWs (w ++ s) = skipWs s := by
  induction w with
  | nil => rfl
  | cons c w2 ih =>
    have hc : isWsC c = true := hw c (by simp)
    have hw2 : allWs w2 := fun x hx => hw x (by simp [hx])
    simp [skipWs, hc, ih hw2]

theorem skipWs_cons {c : Char} (hc : isWsC c = false) (s : List Char) :
    skipWs (c :: s) = c :: s := by
  simp [skipWs, hc]

theorem parseStrBody_safe {content : List Char} (h : ∀ c ∈ content, safeC c)
    (rest : List Char) :
    parseStrBody (content ++ (qchar :: rest)) = some (content, rest) := by
  induction content with
  | nil =>
    rw [List.nil_append, parseStrBody.eq_def]
    dsimp only
    rw [if_pos rfl]
  | cons c cs ih =>
    obtain ⟨hq, hb, hn⟩ := h c (by simp)
    have hcs : ∀ x ∈ cs, safeC x := fun x hx => h x (by simp [hx])
    rw [List.cons_append, parseStrBody.eq_def]
    dsimp only
    rw [if_neg hq, if_neg hb, if_neg (Nat.not_lt.mpr hn), ih hcs]

theorem takeNum_spec {lex : List Char} (h : ∀ x ∈ lex, isNumChar x = true) :
    ∀ rest, numOk rest → takeNum (lex ++ rest) = (lex, rest) := by
  induction lex with
  | nil =>
    intro rest hrest
    cases rest with
    | nil => rfl
    | cons c r =>
      have : isNumChar c = false := hrest
      simp [takeNum, this]
  | cons c cs ih =>
    intro rest hrest
    have hc : isNumChar c = true := h c (by simp)
    have hcs : ∀ x ∈ cs, isNumChar x = true := fun x hx => h x (by simp [hx])
    simp [takeNum, hc, ih hcs rest hrest]

theorem ws_not_num {c : Char} (h : isWsC c = true) : isNumChar c = false := by
  simp only [isWsC, decide_eq_true_eq] at h
  rcases h with rfl | rfl | rfl | rfl <;> decide

theorem numOk_cons {c : Char} (h : isNumChar c = false) (l : List Char) :
    numOk (c :: l) := h

theorem numOk_ws_append {w : List Char} (hw : allWs w) {t : List Char} (ht : numOk t) :
    numOk (w ++ t) := by
  cases w with
  | nil => simpa using ht
  | cons c w2 => exact numOk_cons (ws_not_num (hw c (by simp))) _

theorem parseVal_succ (d : Nat) (s : List Char) :
    parseVal (d + 1) s = parseValCore (parseVal d) (skipWs s) := rfl

theorem parseVal_ws {w : List Char} (hw : allWs w) {f : Nat} (hf : 0 < f)
    (s : List Char) : parseVal f (w ++ s) = parseVal f s := by
  obtain ⟨g, rfl⟩ : ∃ g, f = g + 1 := ⟨f - 1, by omega⟩
  rw [parseVal_succ, parseVal_succ, skipWs_concat hw]

theorem digitOrDash_facts {c : Char} (h : c.isDigit = true ∨ c = '-') :
    isWsC c = false ∧ c ≠ qchar ∧ c ≠ lbrace ∧ c ≠ lbrack ∧ c ≠ rbrack ∧
    c ≠ 't' ∧ c ≠ 'f' ∧ c ≠ 'n' := by
  rcases h with h | rfl
  · refine ⟨?_, ?_, ?_, ?_, ?_, ?_, ?_, ?_⟩
    · cases hw : isWsC c
      · rfl
      · exfalso
        simp only [isWsC, decide_eq_true_eq] at hw
        rcases hw with rfl | rfl | rfl | rfl <;> exact absurd h (by decide)
    all_goals intro he; rw [he] at h; exact absurd h (by decide)
  · decide

theorem primParse {j : Json} {s : List Char} (h : primRend j s) :
    ∀ f rest, 0 < f → numOk rest → parseVal f (s ++ rest) = some (j, rest) := by
  intro f rest hf hrest
  obtain ⟨g, rfl⟩ : ∃ g, f = g + 1 := ⟨f - 1, by omega⟩
  cases j with
  | str content =>
    obtain ⟨hsafe, rfl⟩ := h
    rw [parseVal_succ]
    rw [show (qchar :: (content ++ [qchar])) ++ rest =
        qchar :: (content ++ (qchar :: rest)) by simp]
    rw [skipWs_cons (by decide)]
    simp [parseValCore, parseStrBody_safe hsafe]
  | num lex =>
    obtain ⟨hlex, hs⟩ := h
    subst hs
    cases s with
    | nil => exact absurd hlex (by simp [validNumLex])
    | cons c cs =>
      obtain ⟨hstart, hall⟩ := hlex
      obtain ⟨hws, hq, hbr, hbk, hrb, ht, hfa, hn⟩ := digitOrDash_facts hstart
      rw [parseVal_succ]
      rw [show (c :: cs) ++ rest = c :: (cs ++ rest) by simp]
      rw [skipWs_cons hws]
      have hnum : (c.isDigit || decide (c = '-')) = true := by
        rcases hstart with h | h <;> simp [h]
      rw [parseValCore.eq_def]
      dsimp only
      rw [if_neg hq, if_neg hbr, if_neg hbk, if_neg ht, if_neg hfa, if_neg hn,
        if_pos hnum]
      rw [show c :: (cs ++ rest) = (c :: cs) ++ rest by simp,
        takeNum_spec hall rest hrest]
  | bool b =>
    cases b with
    | true =>
      rw [h, parseVal_succ]
      rw [show ('t' :: 'r' :: 'u' :: 'e' :: []) ++ rest =
          't' :: 'r' :: 'u' :: 'e' :: rest by simp]
      rw [skipWs_cons (by decide)]
      rw [parseValCore.eq_def]
      dsimp only
      rw [if_neg (by decide : ¬(('t' : Char) = qchar)),
          if_neg (by decide : ¬(('t' : Char) = lbrace)),
          if_neg (by decide : ¬(('t' : Char) = lbrack)),
          if_pos rfl]
      simp
    | false =>
      rw [h, parseVal_succ]
      rw [show ('f' :: 'a' :: 'l' :: 's' :: 'e' :: []) ++ rest =
          'f' :: 'a' :: 'l' :: 's' :: 'e' :: rest by simp]
      rw [skipWs_cons (by decide)]
      rw [parseValCore.eq_def]
      dsimp only
      rw [if_neg (by decide : ¬(('f' : Char) = qchar)),
          if_neg (by decide : ¬(('f' : Char) = lbrace)),
          if_neg (by decide : ¬(('f' : Char) = lbrack)),
          if_neg (by decide : ¬(('f' : Char) = 't')),
          if_pos rfl]
      simp
  | null =>
    rw [h, parseVal_succ]
    rw [show ('n' :: 'u' :: 'l' :: 'l' :: []) ++ rest =
        'n' :: 'u' :: 'l' :: 'l' :: rest by simp]
    rw [skipWs_cons (by decide)]
    rw [parseValCore.eq_def]
    dsimp only
    rw [if_neg (by decide : ¬(('n' : Char) = qchar)),
        if_neg (by decide : ¬(('n' : Char) = lbrace)),
        if_neg (by decide : ¬(('n' : Char) = lbrack)),
        if_neg (by decide : ¬(('n' : Char) = 't')),
        if_neg (by decide : ¬(('n' : Char) = 'f')),
        if_pos rfl]
    simp
  | arr vs => exact absurd h (by simp [primRend])
  | obj fs => exact absurd h (by simp [primRend])

theorem primRend_start {j : Json} {s : List Char} (h : primRend j s) :
    ∃ c r0, s = c :: r0 ∧ isWsC c = false ∧ c ≠ rbrack := by
  cases j with
  | str content =>
    obtain ⟨_, rfl⟩ := h
    exact ⟨qchar, _, rfl, by decide, by decide⟩
  | num lex =>
    obtain ⟨hlex, hs⟩ := h
    subst hs
    cases s with
    | nil => exact absurd hlex (by simp [validNumLex])
    | cons c cs =>
      obtain ⟨hstart, _⟩ := hlex
      obtain ⟨hws, _, _, _, hrb, _, _, _⟩ := digitOrDash_facts hstart
      exact ⟨c, cs, rfl, hws, hrb⟩
  | bool b =>
    cases b with
    | true => exact ⟨'t', _, h, by decide, by decide⟩
    | false => exact ⟨'f', _, h, by decide, by decide⟩
  | null => exact ⟨'n', _, h, by decide, by decide⟩
  | arr vs => exact absurd h (by simp [primRend])
  | obj fs => exact absurd h (by simp [primRend])

theorem rendD_start {d : Nat} {j : Json} {s : List Char} (h : RendD d j s) :
    ∃ c r0, s = c :: r0 ∧ isWsC c = false ∧ c ≠ rbrack := by
  cases d with
  | zero => exact primRend_start h
  | succ d =>
    rcases h with hp | ⟨fs, inner, _, rfl, _⟩ | ⟨vs, inner, _, rfl, _⟩
    · exact primRend_start hp
    · exact ⟨lbrace, inner, rfl, by decide, by decide⟩
    · exact ⟨lbrack, inner, rfl, by decide, by decide⟩

theorem parseMembersF_succ (pv : List Char → Option (Json × List Char)) (n : Nat)
    (s : List Char) :
    parseMembersF pv (n + 1) s = parseMembersCore pv (parseMembersF pv n) (skipWs s) := rfl

theorem parseElemsF_succ (pv : List Char → Option (Json × List Char)) (n : Nat)
    (s : List Char) :
    parseElemsF pv (n + 1) s = parseElemsCore pv (parseElemsF pv n) (skipWs s) := rfl

theorem membersParse (RV : Json → List Char → Prop)
    (pv : List Char → Option (Json × List Char))
    (hpv : ∀ v vs w rest2, RV v vs → allWs w → numOk rest2 →
        pv (w ++ (vs ++ rest2)) = some (v, rest2)) :
    ∀ fs inner, RendMs RV fs inner →
      ∀ n rest, inner.length < n →
        parseMembersF pv n (inner ++ rest) = some (fs, rest) := by
  intro fs
  induction fs with
  | nil =>
    intro inner h n rest hn
    obtain ⟨w, hw, rfl⟩ := h
    obtain ⟨n0, rfl⟩ : ∃ n0, n = n0 + 1 := ⟨n - 1, by omega⟩
    rw [parseMembersF_succ]
    rw [show (w ++ [rbrace]) ++ rest = w ++ (rbrace :: rest) by simp]
    rw [skipWs_concat hw, skipWs_cons (by decide)]
    rw [parseMembersCore.eq_def]
    dsimp only
    rw [if_pos rfl]
  | cons kv fs2 ih =>
    obtain ⟨k, v⟩ := kv
    intro inner h n rest hn
    obtain ⟨w1, wc, vs, w3, t2, hw1, hk, hwc, hv, hw3, hinner, htail⟩ := h
    subst hinner
    obtain ⟨n0, rfl⟩ : ∃ n0, n = n0 + 1 := ⟨n - 1, by omega⟩
    have hnOk : numOk (t2 ++ rest) := by
      rcases fs2 with _ | ⟨f2, fs2p⟩
      · rw [htail]; exact numOk_cons (by decide) _
      · obtain ⟨t3, ht2, _⟩ := htail
        rw [ht2]; exact numOk_cons (by decide) _
    rw [parseMembersF_succ]
    rw [show (w1 ++ qchar :: (k ++ qchar :: (':' :: (wc ++ (vs ++ (w3 ++ t2)))))) ++ rest
        = w1 ++ (qchar :: (k ++ (qchar :: (':' :: (wc ++ (vs ++ (w3 ++ (t2 ++ rest)))))))) by
      simp]
    rw [skipWs_concat hw1, skipWs_cons (by decide)]
    rw [parseMembersCore.eq_def]
    dsimp only
    rw [if_neg (by decide : ¬(qchar = rbrace)), if_pos rfl]
    rw [parseStrBody_safe hk]
    dsimp only
    rw [skipWs_cons (by decide : isWsC ':' = false)]
    dsimp only
    rw [if_pos rfl]
    rw [hpv v vs wc (w3 ++ (t2 ++ rest)) hv hwc (numOk_ws_append hw3 hnOk)]
    dsimp only
    rw [skipWs_concat hw3]
    cases fs2 with
    | nil =>
      rw [htail]
      rw [show ([rbrace] : List Char) ++ rest = rbrace :: rest by simp]
      rw [skipWs_cons (by decide)]
      dsimp only
      rw [if_neg (by decide : ¬(rbrace = ',')), if_pos rfl]
    | cons f2 fs2p =>
      obtain ⟨t3, ht2, hms⟩ := htail
      subst ht2
      rw [show ((',' :: t3) ++ rest) = ',' :: (t3 ++ rest) by simp]
      rw [skipWs_cons (by decide)]
      dsimp only
      rw [if_pos rfl]
      have hlen : t3.length < n0 := by
        simp only [List.length_append, List.length_cons] at hn
        omega
      rw [ih t3 hms n0 rest hlen]

theorem elemsParse (RV : Json → List Char → Prop)
    (pv : List Char → Option (Json × List Char))
    (hpv : ∀ v vs w rest2, RV v vs → allWs w → numOk rest2 →
        pv (w ++ (vs ++ rest2)) = some (v, rest2))
    (hstart : ∀ v vs, RV v vs → ∃ c r0, vs = c :: r0 ∧ isWsC c = false ∧ c ≠ rbrack) :
    ∀ vs inner, RendEs RV vs inner →
      ∀ n rest, inner.length < n →
        parseElemsF pv n (inner ++ rest) = some (vs, rest) := by
  intro vs
  induction vs with
  | nil =>
    intro inner h n rest hn
    obtain ⟨w, hw, rfl⟩ := h
    obtain ⟨n0, rfl⟩ : ∃ n0, n = n0 + 1 := ⟨n - 1, by omega⟩
    rw [parseElemsF_succ]
    rw [show (w ++ [rbrack]) ++ rest = w ++ (rbrack :: rest) by simp]
    rw [skipWs_concat hw, skipWs_cons (by decide)]
    rw [parseElemsCore.eq_def]
    dsimp only
    rw [if_pos rfl]
  | cons v vs2 ih =>
    intro inner h n rest hn
    obtain ⟨es, w2, t2, hv, hw2, hinner, htail⟩ := h
    subst hinner
    obtain ⟨n0, rfl⟩ : ∃ n0, n = n0 + 1 := ⟨n - 1, by omega⟩
    obtain ⟨c0, r0, hes, hc0ws, hc0rb⟩ := hstart v es hv
    have hnOk : numOk (t2 ++ rest) := by
      rcases vs2 with _ | ⟨v2, vs2p⟩
      · rw [htail]; exact numOk_cons (by decide) _
      · obtain ⟨t3, ht2, _⟩ := htail
        rw [ht2]; exact numOk_cons (by decide) _
    rw [parseElemsF_succ]
    rw [show (es ++ (w2 ++ t2)) ++ rest = es ++ (w2 ++ (t2 ++ rest)) by simp]
    rw [hes]
    rw [show (c0 :: r0) ++ (w2 ++ (t2 ++ rest)) = c0 :: (r0 ++ (w2 ++ (t2 ++ rest))) by simp]
    rw [skipWs_cons hc0ws]
    rw [parseElemsCore.eq_def]
    dsimp only
    rw [if_neg hc0rb]
    have hpv2 := hpv v es [] (w2 ++ (t2 ++ rest)) hv (by intro x hx; simp at hx)
      (numOk_ws_append hw2 hnOk)
    rw [List.nil_append] at hpv2
    rw [show c0 :: (r0 ++ (w2 ++ (t2 ++ rest))) = es ++ (w2 ++ (t2 ++ rest)) by
      rw [hes]; simp]
    rw [hpv2]
    dsimp only
    rw [skipWs_concat hw2]
    cases vs2 with
    | nil =>
      rw [htail]
      rw [show ([rbrack] : List Char) ++ rest = rbrack :: rest by simp]
      rw [skipWs_cons (by decide)]
      dsimp only
      rw [if_neg (by decide : ¬(rbrack = ',')), if_pos rfl]
    | cons v2 vs2p =>
      obtain ⟨t3, ht2, hes2⟩ := htail
      subst ht2
      rw [show ((',' :: t3) ++ rest) = ',' :: (t3 ++ rest) by simp]
      rw [skipWs_cons (by decide)]
      dsimp only
      rw [if_pos rfl]
      have hlen : t3.length < n0 := by
        have := hes ▸ hn
        simp only [List.length_append, List.length_cons] at hn ⊢
        omega
      rw [ih t3 hes2 n0 rest hlen]

theorem rendDparse :
    ∀ d j s, RendD d j s → ∀ f rest, d < f → numOk rest →
      parseVal f (s ++ rest) = some (j, rest) := by
  intro d
  induction d with
  | zero =>
    intro j s h f rest hf hrest
    exact primParse h f rest hf hrest
  | succ d ih =>
    intro j s h f rest hf hrest
    have hpv : ∀ v vs w rest2, RendD d v vs → allWs w → numOk rest2 →
        parseVal (f - 1) (w ++ (vs ++ rest2)) = some (v, rest2) := by
      intro v vs w rest2 hv hw hnum
      rw [parseVal_ws hw (by omega)]
      exact ih v vs hv (f - 1) rest2 (by omega) hnum
    rcases h with hp | ⟨fs, inner, rfl, rfl, hms⟩ | ⟨vs, inner, rfl, rfl, hes⟩
    · exact primParse hp f rest (by omega) hrest
    · obtain ⟨f0, rfl⟩ : ∃ f0, f = f0 + 1 := ⟨f - 1, by omega⟩
      rw [parseVal_succ]
      rw [show (lbrace :: inner) ++ rest = lbrace :: (inner ++ rest) by simp]
      rw [skipWs_cons (by decide)]
      rw [parseValCore.eq_def]
      dsimp only
      rw [if_neg (by decide : ¬(lbrace = qchar)), if_pos rfl]
      rw [membersParse (RendD d) (parseVal f0) (by simpa using hpv) fs inner hms
        ((inner ++ rest).length + 1) rest (by simp [List.length_append]; omega)]
    · obtain ⟨f0, rfl⟩ : ∃ f0, f = f0 + 1 := ⟨f - 1, by omega⟩
      rw [parseVal_succ]
      rw [show (lbrack :: inner) ++ rest = lbrack :: (inner ++ rest) by simp]
      rw [skipWs_cons (by decide)]
      rw [parseValCore.eq_def]
      dsimp only
      rw [if_neg (by decide : ¬(lbrack = qchar)), if_neg (by decide : ¬(lbrack = lbrace)),
        if_pos rfl]
      rw [elemsParse (RendD d) (parseVal f0) (by simpa using hpv)
        (fun v vsx hv => rendD_start hv) vs inner hes
        ((inner ++ rest).length + 1) rest (by simp [List.length_append]; omega)]

theorem rendD_str (d : Nat) (v : String) (hv : safeStr v) :
    RendD d (Json.str v.data) (strRend v) := by
  cases d with
  | zero => exact ⟨hv, rfl⟩
  | succ d => exact Or.inl ⟨hv, rfl⟩

theorem rendD_num (d : Nat) (lex : String) (hlex : validNumLex lex.data) :
    RendD d (Json.num lex.data) lex.data := by
  cases d with
  | zero => exact ⟨hlex, rfl⟩
  | succ d => exact Or.inl ⟨hlex, rfl⟩

theorem rendD_true (d : Nat) : RendD d (Json.bool true) ("true".data) := by
  cases d with
  | zero => exact rfl
  | succ d => exact Or.inl rfl

theorem rendD_obj (d : Nat) (fs : List (List Char × Json)) (inner : List Char)
    (h : RendMs (RendD d) fs inner) : RendD (d + 1) (Json.obj fs) (lbrace :: inner) :=
  Or.inr (Or.inl ⟨fs, inner, rfl, rfl, h⟩)

theorem rendD_arrNil (d : Nat) : RendD (d + 1) (Json.arr []) (lbrack :: [rbrack]) :=
  Or.inr (Or.inr ⟨[], [rbrack], rfl, rfl, ⟨[], by intro x hx; simp at hx, rfl⟩⟩)

theorem rendMs_last (RV : Json → List Char → Prop) (w1 k wc w3 : String) (v : Json)
    (vs : List Char) (hw1 : allWs w1.data) (hk : ∀ c ∈ k.data, safeC c)
    (hwc : allWs wc.data) (hv : RV v vs) (hw3 : allWs w3.data) :
    RendMs RV [(k.data, v)]
      (w1.data ++ qchar :: (k.data ++ qchar :: (':' :: (wc.data ++ (vs ++ (w3.data ++ [rbrace])))))) :=
  ⟨w1.data, wc.data, vs, w3.data, [rbrace], hw1, hk, hwc, hv, hw3, rfl, rfl⟩

theorem rendMs_cons (RV : Json → List Char → Prop) (w1 k wc : String) (v : Json)
    (vs : List Char) (f2 : List Char × Json) (fs2 : List (List Char × Json)) (t3 : List Char)
    (hw1 : allWs w1.data) (hk : ∀ c ∈ k.data, safeC c) (hwc : allWs wc.data)
    (hv : RV v vs) (hrest : RendMs RV (f2 :: fs2) t3) :
    RendMs RV ((k.data, v) :: f2 :: fs2)
      (w1.data ++ qchar :: (k.data ++ qchar :: (':' :: (wc.data ++ (vs ++ (',' :: t3)))))) :=
  ⟨w1.data, wc.data, vs, [], ',' :: t3, hw1, hk, hwc, hv, by intro x hx; simp at hx,
    by simp, ⟨t3, rfl, hrest⟩⟩

theorem decode_of_rend {j : Json} {s : String} (h : RendD 6 j s.data) :
    decode s = some j := by
  have hp := rendDparse 6 j s.data h (s.length + 7) [] (by omega) trivial
  rw [List.append_nil] at hp
  unfold decode
  rw [hp]
  dsimp only
  simp [skipWs]

theorem rend_promptEnd (p : String) (hp : safeStr p) :
    RendD 6 (Json.obj [("event".data, Json.obj [("promptEnd".data, Json.obj
      [("promptName".data, Json.str p.data)])])])
      ((PROMPT_END_EVENT p).data) := by
  have h3 := rendMs_last (RendD 3) "\n            " "promptName" " " "\n            "
    (Json.str p.data) (strRend p) (by decide) (by decide) (by decide)
    (rendD_str 3 p hp) (by decide)
  have h2 := rendMs_last (RendD 4) "\n            " "promptEnd" " " "\n        "
    _ _ (by decide) (by decide) (by decide) (rendD_obj 3 _ _ h3) (by decide)
  have h1 := rendMs_last (RendD 5) "\n        " "event" " " "\n    "
    _ _ (by decide) (by decide) (by decide) (rendD_obj 4 _ _ h2) (by decide)
  have hfin := rendD_obj 5 _ _ h1
  have hA : ("\x7b\n        \"event\": \x7b\n            \"promptEnd\": \x7b\n            \"promptName\": \"" : String).data
      = [lbrace] ++ ("\n        ".data ++ ([qchar] ++ ("event".data ++ ([qchar] ++ ([':'] ++
        (" ".data ++ ([lbrace] ++ ("\n            ".data ++ ([qchar] ++ ("promptEnd".data ++
        ([qchar] ++ ([':'] ++ (" ".data ++ ([lbrace] ++ ("\n            ".data ++ ([qchar] ++
        ("promptName".data ++ ([qchar] ++ ([':'] ++ (" ".data ++ [qchar])))))))))))))))))))) := by
    decide
  have hB : ("\"\n            \x7d\n        \x7d\n    \x7d" : String).data
      = [qchar] ++ ("\n            ".data ++ ([rbrace] ++ ("\n        ".data ++ ([rbrace] ++
        ("\n    ".data ++ [rbrace]))))) := by decide
  simp only [PROMPT_END_EVENT, String.data_append, hA, hB, List.append_assoc,
    List.singleton_append, List.cons_append, List.nil_append]
  simpa only [strRend, List.append_assoc, List.singleton_append, List.cons_append,
    List.nil_append] using hfin

theorem rend_contentEnd (p c : String) (hp : safeStr p) (hc : safeStr c) :
    RendD 6 (Json.obj [("event".data, Json.obj [("contentEnd".data, Json.obj
      [("promptName".data, Json.str p.data),
       ("contentName".data, Json.str c.data)])])])
      ((CONTENT_END_EVENT p c).data) := by
  have h3b := rendMs_last (RendD 3) "\n            " "contentName" " " "\n            "
    (Json.str c.data) (strRend c) (by decide) (by decide) (by decide)
    (rendD_str 3 c hc) (by decide)
  have h3 := rendMs_cons (RendD 3) "\n            " "promptName" " "
    (Json.str p.data) (strRend p) _ _ _ (by decide) (by decide) (by decide)
    (rendD_str 3 p hp) h3b
  have h2 := rendMs_last (RendD 4) "\n            " "contentEnd" " " "\n        "
    _ _ (by decide) (by decide) (by decide) (rendD_obj 3 _ _ h3) (by decide)
  have h1 := rendMs_last (RendD 5) "\n        " "event" " " "\n    "
    _ _ (by decide) (by decide) (by decide) (rendD_obj 4 _ _ h2) (by decide)
  have hfin := rendD_obj 5 _ _ h1
  have hA : ("\x7b\n        \"event\": \x7b\n            \"contentEnd\": \x7b\n            \"promptName\": \"" : String).data
      = [lbrace] ++ ("\n        ".data ++ ([qchar] ++ ("event".data ++ ([qchar] ++ ([':'] ++
        (" ".data ++ ([lbrace] ++ ("\n            ".data ++ ([qchar] ++ ("contentEnd".data ++
        ([qchar] ++ ([':'] ++ (" ".data ++ ([lbrace] ++ ("\n            ".data ++ ([qchar] ++
        ("promptName".data ++ ([qchar] ++ ([':'] ++ (" ".data ++ [qchar])))))))))))))))))))) := by
    decide
  have hB : ("\",\n            \"contentName\": \"" : String).data
      = [qchar] ++ ([','] ++ ("\n            ".data ++ ([qchar] ++ ("contentName".data ++
        ([qchar] ++ ([':'] ++ (" ".data ++ [qchar]))))))) := by decide
  have hC : ("\"\n            \x7d\n        \x7d\n    \x7d" : String).data
      = [qchar] ++ ("\n            ".data ++ ([rbrace] ++ ("\n        ".data ++ ([rbrace] ++
        ("\n    ".data ++ [rbrace]))))) := by decide
  simp only [CONTENT_END_EVENT, String.data_append, hA, hB, hC, List.append_assoc,
    List.singleton_append, List.cons_append, List.nil_append]
  simpa only [strRend, List.append_assoc, List.singleton_append, List.cons_append,
    List.nil_append] using hfin

theorem rend_textInput (p c t : String) (hp : safeStr p) (hc : safeStr c)
    (ht : safeStr t) :
    RendD 6 (Json.obj [("event".data, Json.obj [("textInput".data, Json.obj
      [("promptName".data, Json.str p.data),
       ("contentName".data, Json.str c.data),
       ("content".data, Json.str t.data)])])])
      ((TEXT_INPUT_EVENT p c t).data) := by
  have h3c := rendMs_last (RendD 3) "\n            " "content" " " "\n            "
    (Json.str t.data) (strRend t) (by decide) (by decide) (by decide)
    (rendD_str 3 t ht) (by decide)
  have h3b := rendMs_cons (RendD 3) "\n            " "contentName" " "
    (Json.str c.data) (strRend c) _ _ _ (by decide) (by decide) (by decide)
    (rendD_str 3 c hc) h3c
  have h3 := rendMs_cons (RendD 3) "\n            " "promptName" " "
    (Json.str p.data) (strRend p) _ _ _ (by decide) (by decide) (by decide)
    (rendD_str 3 p hp) h3b
  have h2 := rendMs_last (RendD 4) "\n            " "textInput" " " "\n        "
    _ _ (by decide) (by decide) (by decide) (rendD_obj 3 _ _ h3) (by decide)
  have h1 := rendMs_last (RendD 5) "\n        " "event" " " "\n    "
    _ _ (by decide) (by decide) (by decide) (rendD_obj 4 _ _ h2) (by decide)
  have hfin := rendD_obj 5 _ _ h1
  have hA : ("\x7b\n        \"event\": \x7b\n            \"textInput\": \x7b\n            \"promptName\": \"" : String).data
      = [lbrace] ++ ("\n        ".data ++ ([qchar] ++ ("event".data ++ ([qchar] ++ ([':'] ++
        (" ".data ++ ([lbrace] ++ ("\n            ".data ++ ([qchar] ++ ("textInput".data ++
        ([qchar] ++ ([':'] ++ (" ".data ++ ([lbrace] ++ ("\n            ".data ++ ([qchar] ++
        ("promptName".data ++ ([qchar] ++ ([':'] ++ (" ".data ++ [qchar])))))))))))))))))))) := by
    decide
  have hB : ("\",\n            \"contentName\": \"" : String).data
      = [qchar] ++ ([','] ++ ("\n            ".data ++ ([qchar] ++ ("contentName".data ++
        ([qchar] ++ ([':'] ++ (" ".data ++ [qchar]))))))) := by decide
  have hC : ("\",\n            \"content\": \"" : String).data
      = [qchar] ++ ([','] ++ ("\n            ".data ++ ([qchar] ++ ("content".data ++
        ([qchar] ++ ([':'] ++ (" ".data ++ [qchar]))))))) := by decide
  have hD : ("\"\n            \x7d\n        \x7d\n    \x7d" : String).data
      = [qchar] ++ ("\n            ".data ++ ([rbrace] ++ ("\n        ".data ++ ([rbrace] ++
        ("\n    ".data ++ [rbrace]))))) := by decide
  simp only [TEXT_INPUT_EVENT, String.data_append, hA, hB, hC, hD, List.append_assoc,
    List.singleton_append, List.cons_append, List.nil_append]
  simpa only [strRend, List.append_assoc, List.singleton_append, List.cons_append,
    List.nil_append] using hfin

theorem rend_audioInput (p c t : String) (hp : safeStr p) (hc : safeStr c)
    (ht : safeStr t) :
    RendD 6 (Json.obj [("event".data, Json.obj [("audioInput".data, Json.obj
      [("promptName".data, Json.str p.data),
       ("contentName".data, Json.str c.data),
       ("content".data, Json.str t.data)])])])
      ((AUDIO_EVENT_TEMPLATE p c t).data) := by
  have h3c := rendMs_last (RendD 3) "\n            " "content" " " "\n            "
    (Json.str t.data) (strRend t) (by decide) (by decide) (by decide)
    (rendD_str 3 t ht) (by decide)
  have h3b := rendMs_cons (RendD 3) "\n            " "contentName" " "
    (Json.str c.data) (strRend c) _ _ _ (by decide) (by decide) (by decide)
    (rendD_str 3 c hc) h3c
  have h3 := rendMs_cons (RendD 3) "\n            " "promptName" " "
    (Json.str p.data) (strRend p) _ _ _ (by decide) (by decide) (by decide)
    (rendD_str 3 p hp) h3b
  have h2 := rendMs_last (RendD 4) "\n            " "audioInput" " " "\n        "
    _ _ (by decide) (by decide) (by decide) (rendD_obj 3 _ _ h3) (by decide)
  have h1 := rendMs_last (RendD 5) "\n        " "event" " " "\n    "
    _ _ (by decide) (by decide) (by decide) (rendD_obj 4 _ _ h2) (by decide)
  have hfin := rendD_obj 5 _ _ h1
  have hA : ("\x7b\n        \"event\": \x7b\n            \"audioInput\": \x7b\n            \"promptName\": \"" : String).data
      = [lbrace] ++ ("\n        ".data ++ ([qchar] ++ ("event".data ++ ([qchar] ++ ([':'] ++
        (" ".data ++ ([lbrace] ++ ("\n            ".data ++ ([qchar] ++ ("audioInput".data ++
        ([qchar] ++ ([':'] ++ (" ".data ++ ([lbrace] ++ ("\n            ".data ++ ([qchar] ++
        ("promptName".data ++ ([qchar] ++ ([':'] ++ (" ".data ++ [qchar])))))))))))))))))))) := by
    decide
  have hB : ("\",\n            \"contentName\": \"" : String).data
      = [qchar] ++ ([','] ++ ("\n            ".data ++ ([qchar] ++ ("contentName".data ++
        ([qchar] ++ ([':'] ++ (" ".data ++ [qchar]))))))) := by decide
  have hC : ("\",\n            \"content\": \"" : String).data
      = [qchar] ++ ([','] ++ ("\n            ".data ++ ([qchar] ++ ("content".data ++
        ([qchar] ++ ([':'] ++ (" ".data ++ [qchar]))))))) := by decide
  have hD : ("\"\n            \x7d\n        \x7d\n    \x7d" : String).data
      = [qchar] ++ ("\n            ".data ++ ([rbrace] ++ ("\n        ".data ++ ([rbrace] ++
        ("\n    ".data ++ [rbrace]))))) := by decide
  simp only [AUDIO_EVENT_TEMPLATE, String.data_append, hA, hB, hC, hD, List.append_assoc,
    List.singleton_append, List.cons_append, List.nil_append]
  simpa only [strRend, List.append_assoc, List.singleton_append, List.cons_append,
    List.nil_append] using hfin

theorem rend_contentStartText (p c r : String) (hp : safeStr p) (hc : safeStr c)
    (hr : safeStr r) :
    RendD 6 (Json.obj [("event".data, Json.obj [("contentStart".data, Json.obj
      [("promptName".data, Json.str p.data),
       ("contentName".data, Json.str c.data),
       ("role".data, Json.str r.data),
       ("type".data, Json.str "TEXT".data),
       ("interactive".data, Json.bool true),
       ("textInputConfiguration".data, Json.obj
         [("mediaType".data, Json.str "text/plain".data)])])])])
      ((TEXT_CONTENT_START_EVENT p c r).data) := by
  have h4 := rendMs_last (RendD 2) "\n                    " "mediaType" " " "\n                "
    (Json.str "text/plain".data) (strRend "text/plain") (by decide) (by decide) (by decide)
    (rendD_str 2 "text/plain" (by decide)) (by decide)
  have h3f := rendMs_last (RendD 3) "\n                " "textInputConfiguration" " "
    "\n            " _ _ (by decide) (by decide) (by decide) (rendD_obj 2 _ _ h4) (by decide)
  have h3e := rendMs_cons (RendD 3) "\n            " "interactive" " "
    (Json.bool true) ("true".data) _ _ _ (by decide) (by decide) (by decide)
    (rendD_true 3) h3f
  have h3d := rendMs_cons (RendD 3) "\n            " "type" " "
    (Json.str "TEXT".data) (strRend "TEXT") _ _ _ (by decide) (by decide) (by decide)
    (rendD_str 3 "TEXT" (by decide)) h3e
  have h3c := rendMs_cons (RendD 3) "\n            " "role" " "
    (Json.str r.data) (strRend r) _ _ _ (by decide) (by decide) (by decide)
    (rendD_str 3 r hr) h3d
  have h3b := rendMs_cons (RendD 3) "\n            " "contentName" " "
    (Json.str c.data) (strRend c) _ _ _ (by decide) (by decide) (by decide)
    (rendD_str 3 c hc) h3c
  have h3 := rendMs_cons (RendD 3) "\n            " "promptName" " "
    (Json.str p.data) (strRend p) _ _ _ (by decide) (by decide) (by decide)
    (rendD_str 3 p hp) h3b
  have h2 := rendMs_last (RendD 4) "\n            " "contentStart" " " "\n        "
    _ _ (by decide) (by decide) (by decide) (rendD_obj 3 _ _ h3) (by decide)
  have h1 := rendMs_last (RendD 5) "\n        " "event" " " "\n    "
    _ _ (by decide) (by decide) (by decide) (rendD_obj 4 _ _ h2) (by decide)
  have hfin := rendD_obj 5 _ _ h1
  have hA : ("\x7b\n        \"event\": \x7b\n            \"contentStart\": \x7b\n            \"promptName\": \"" : String).data
      = [lbrace] ++ "\n        ".data ++ [qchar] ++ "event".data ++ [qchar] ++ [':'] ++
        " ".data ++ [lbrace] ++ "\n            ".data ++ [qchar] ++ "contentStart".data ++
        [qchar] ++ [':'] ++ " ".data ++ [lbrace] ++ "\n            ".data ++ [qchar] ++
        "promptName".data ++ [qchar] ++ [':'] ++ " ".data ++ [qchar] := by decide
  have hB : ("\",\n            \"contentName\": \"" : String).data
      = [qchar] ++ [','] ++ "\n            ".data ++ [qchar] ++ "contentName".data ++
        [qchar] ++ [':'] ++ " ".data ++ [qchar] := by decide
  have hC : ("\",\n            \"role\": \"" : String).data
      = [qchar] ++ [','] ++ "\n            ".data ++ [qchar] ++ "role".data ++
        [qchar] ++ [':'] ++ " ".data ++ [qchar] := by decide
  have hD : ("\",\n            \"type\": \"TEXT\",\n            \"interactive\": true,\n                \"textInputConfiguration\": \x7b\n                    \"mediaType\": \"text/plain\"\n                \x7d\n            \x7d\n        \x7d\n    \x7d" : String).data
      = [qchar] ++ [','] ++ "\n            ".data ++ [qchar] ++ "type".data ++ [qchar] ++
        [':'] ++ " ".data ++ [qchar] ++ "TEXT".data ++ [qchar] ++ [','] ++
        "\n            ".data ++ [qchar] ++ "interactive".data ++ [qchar] ++ [':'] ++
        " ".data ++ "true".data ++ [','] ++ "\n                ".data ++ [qchar] ++
        "textInputConfiguration".data ++ [qchar] ++ [':'] ++ " ".data ++ [lbrace] ++
        "\n                    ".data ++ [qchar] ++ "mediaType".data ++ [qchar] ++ [':'] ++
        " ".data ++ [qchar] ++ "text/plain".data ++ [qchar] ++ "\n                ".data ++
        [rbrace] ++ "\n            ".data ++ [rbrace] ++ "\n        ".data ++ [rbrace] ++
        "\n    ".data ++ [rbrace] := by decide
  simp only [TEXT_CONTENT_START_EVENT, String.data_append, hA, hB, hC, hD,
    List.append_assoc, List.singleton_append, List.cons_append, List.nil_append]
  simpa only [strRend, List.append_assoc, List.singleton_append, List.cons_append,
    List.nil_append] using hfin

theorem rend_contentStartAudio (p c : String) (hp : safeStr p) (hc : safeStr c) :
    RendD 6 (Json.obj [("event".data, Json.obj [("contentStart".data, Json.obj
      [("promptName".data, Json.str p.data),
       ("contentName".data, Json.str c.data),
       ("type".data, Json.str "AUDIO".data),
       ("interactive".data, Json.bool true),
       ("role".data, Json.str "USER".data),
       ("audioInputConfiguration".data, Json.obj
         [("mediaType".data, Json.str "audio/lpcm".data),
          ("sampleRateHertz".data, Json.num "16000".data),
          ("sampleSizeBits".data, Json.num "16".data),
          ("channelCount".data, Json.num "1".data),
          ("audioType".data, Json.str "SPEECH".data),
          ("encoding".data, Json.str "base64".data)])])])])
      ((CONTENT_START_EVENT p c).data) := by
  have h4f := rendMs_last (RendD 2) "\n                " "encoding" " " "\n                "
    (Json.str "base64".data) (strRend "base64") (by decide) (by decide) (by decide)
    (rendD_str 2 "base64" (by decide)) (by decide)
  have h4e := rendMs_cons (RendD 2) "\n                " "audioType" " "
    (Json.str "SPEECH".data) (strRend "SPEECH") _ _ _ (by decide) (by decide) (by decide)
    (rendD_str 2 "SPEECH" (by decide)) h4f
  have h4d := rendMs_cons (RendD 2) "\n                " "channelCount" " "
    (Json.num "1".data) ("1".data) _ _ _ (by decide) (by decide) (by decide)
    (rendD_num 2 "1" (by decide)) h4e
  have h4c := rendMs_cons (RendD 2) "\n                " "sampleSizeBits" " "
    (Json.num "16".data) ("16".data) _ _ _ (by decide) (by decide) (by decide)
    (rendD_num 2 "16" (by decide)) h4d
  have h4b := rendMs_cons (RendD 2) "\n                " "sampleRateHertz" " "
    (Json.num "16000".data) ("16000".data) _ _ _ (by decide) (by decide) (by decide)
    (rendD_num 2 "16000" (by decide)) h4c
  have h4 := rendMs_cons (RendD 2) "\n                " "mediaType" " "
    (Json.str "audio/lpcm".data) (strRend "audio/lpcm") _ _ _ (by decide) (by decide)
    (by decide) (rendD_str 2 "audio/lpcm" (by decide)) h4b
  have h3f := rendMs_last (RendD 3) "\n            " "audioInputConfiguration" " "
    "\n            " _ _ (by decide) (by decide) (by decide) (rendD_obj 2 _ _ h4) (by decide)
  have h3e := rendMs_cons (RendD 3) "\n            " "role" " "
    (Json.str "USER".data) (strRend "USER") _ _ _ (by decide) (by decide) (by decide)
    (rendD_str 3 "USER" (by decide)) h3f
  have h3d := rendMs_cons (RendD 3) "\n            " "interactive" " "
    (Json.bool true) ("true".data) _ _ _ (by decide) (by decide) (by decide)
    (rendD_true 3) h3e
  have h3c := rendMs_cons (RendD 3) "\n            " "type" " "
    (Json.str "AUDIO".data) (strRend "AUDIO") _ _ _ (by decide) (by decide) (by decide)
    (rendD_str 3 "AUDIO" (by decide)) h3d
  have h3b := rendMs_cons (RendD 3) "\n            " "contentName" " "
    (Json.str c.data) (strRend c) _ _ _ (by decide) (by decide) (by decide)
    (rendD_str 3 c hc) h3c
  have h3 := rendMs_cons (RendD 3) "\n            " "promptName" " "
    (Json.str p.data) (strRend p) _ _ _ (by decide) (by decide) (by decide)
    (rendD_str 3 p hp) h3b
  have h2 := rendMs_last (RendD 4) "\n            " "contentStart" " " "\n        "
    _ _ (by decide) (by decide) (by decide) (rendD_obj 3 _ _ h3) (by decide)
  have h1 := rendMs_last (RendD 5) "\n        " "event" " " "\n    "
    _ _ (by decide) (by decide) (by decide) (rendD_obj 4 _ _ h2) (by decide)
  have hfin := rendD_obj 5 _ _ h1
  have hA : ("\x7b\n        \"event\": \x7b\n            \"contentStart\": \x7b\n            \"promptName\": \"" : String).data
      = [lbrace] ++ "\n        ".data ++ [qchar] ++ "event".data ++ [qchar] ++ [':'] ++
        " ".data ++ [lbrace] ++ "\n            ".data ++ [qchar] ++ "contentStart".data ++
        [qchar] ++ [':'] ++ " ".data ++ [lbrace] ++ "\n            ".data ++ [qchar] ++
        "promptName".data ++ [qchar] ++ [':'] ++ " ".data ++ [qchar] := by decide
  have hB : ("\",\n            \"contentName\": \"" : String).data
      = [qchar] ++ [','] ++ "\n            ".data ++ [qchar] ++ "contentName".data ++
        [qchar] ++ [':'] ++ " ".data ++ [qchar] := by decide
  have hC : ("\",\n            \"type\": \"AUDIO\",\n            \"interactive\": true,\n            \"role\": \"USER\",\n            \"audioInputConfiguration\": \x7b\n                \"mediaType\": \"audio/lpcm\",\n                \"sampleRateHertz\": 16000,\n                \"sampleSizeBits\": 16,\n                \"channelCount\": 1,\n                \"audioType\": \"SPEECH\",\n                \"encoding\": \"base64\"\n                \x7d\n            \x7d\n        \x7d\n    \x7d" : String).data
      = [qchar] ++ [','] ++ "\n            ".data ++ [qchar] ++ "type".data ++ [qchar] ++
        [':'] ++ " ".data ++ [qchar] ++ "AUDIO".data ++ [qchar] ++ [','] ++
        "\n            ".data ++ [qchar] ++ "interactive".data ++ [qchar] ++ [':'] ++
        " ".data ++ "true".data ++ [','] ++ "\n            ".data ++ [qchar] ++
        "role".data ++ [qchar] ++ [':'] ++ " ".data ++ [qchar] ++ "USER".data ++ [qchar] ++
        [','] ++ "\n            ".data ++ [qchar] ++ "audioInputConfiguration".data ++
        [qchar] ++ [':'] ++ " ".data ++ [lbrace] ++ "\n                ".data ++ [qchar] ++
        "mediaType".data ++ [qchar] ++ [':'] ++ " ".data ++ [qchar] ++ "audio/lpcm".data ++
        [qchar] ++ [','] ++ "\n                ".data ++ [qchar] ++ "sampleRateHertz".data ++
        [qchar] ++ [':'] ++ " ".data ++ "16000".data ++ [','] ++ "\n                ".data ++
        [qchar] ++ "sampleSizeBits".data ++ [qchar] ++ [':'] ++ " ".data ++ "16".data ++
        [','] ++ "\n                ".data ++ [qchar] ++ "channelCount".data ++ [qchar] ++
        [':'] ++ " ".data ++ "1".data ++ [','] ++ "\n                ".data ++ [qchar] ++
        "audioType".data ++ [qchar] ++ [':'] ++ " ".data ++ [qchar] ++ "SPEECH".data ++
        [qchar] ++ [','] ++ "\n                ".data ++ [qchar] ++ "encoding".data ++
        [qchar] ++ [':'] ++ " ".data ++ [qchar] ++ "base64".data ++ [qchar] ++
        "\n                ".data ++ [rbrace] ++ "\n            ".data ++ [rbrace] ++
        "\n        ".data ++ [rbrace] ++ "\n    ".data ++ [rbrace] := by decide
  simp only [CONTENT_START_EVENT, String.data_append, hA, hB, hC,
    List.append_assoc, List.singleton_append, List.cons_append, List.nil_append]
  simpa only [strRend, List.append_assoc, List.singleton_append, List.cons_append,
    List.nil_append] using hfin

theorem rend_promptStart (p voice : String) (hp : safeStr p) (hv : safeStr voice) :
    RendD 6 (Json.obj [("event".data, Json.obj [("promptStart".data, Json.obj
      [("promptName".data, Json.str p.data),
       ("textOutputConfiguration".data, Json.obj
         [("mediaType".data, Json.str "text/plain".data)]),
       ("audioOutputConfiguration".data, Json.obj
         [("mediaType".data, Json.str "audio/lpcm".data),
          ("sampleRateHertz".data, Json.num "24000".data),
          ("sampleSizeBits".data, Json.num "16".data),
          ("channelCount".data, Json.num "1".data),
          ("voiceId".data, Json.str voice.data),
          ("encoding".data, Json.str "base64".data),
          ("audioType".data, Json.str "SPEECH".data)]),
       ("toolUseOutputConfiguration".data, Json.obj
         [("mediaType".data, Json.str "application/json".data)]),
       ("toolConfiguration".data, Json.obj
         [("tools".data, Json.arr [])])])])])
      ((START_PROMPT_EVENT p voice).data) := by
  have htx := rendMs_last (RendD 2) "\n                " "mediaType" " " "\n                "
    (Json.str "text/plain".data) (strRend "text/plain") (by decide) (by decide) (by decide)
    (rendD_str 2 "text/plain" (by decide)) (by decide)
  have h6g := rendMs_last (RendD 2) "\n                " "audioType" " " "\n                "
    (Json.str "SPEECH".data) (strRend "SPEECH") (by decide) (by decide) (by decide)
    (rendD_str 2 "SPEECH" (by decide)) (by decide)
  have h6f := rendMs_cons (RendD 2) "\n                " "encoding" " "
    (Json.str "base64".data) (strRend "base64") _ _ _ (by decide) (by decide) (by decide)
    (rendD_str 2 "base64" (by decide)) h6g
  have h6e := rendMs_cons (RendD 2) "\n                " "voiceId" " "
    (Json.str voice.data) (strRend voice) _ _ _ (by decide) (by decide) (by decide)
    (rendD_str 2 voice hv) h6f
  have h6d := rendMs_cons (RendD 2) "\n                " "channelCount" " "
    (Json.num "1".data) ("1".data) _ _ _ (by decide) (by decide) (by decide)
    (rendD_num 2 "1" (by decide)) h6e
  have h6c := rendMs_cons (RendD 2) "\n                " "sampleSizeBits" " "
    (Json.num "16".data) ("16".data) _ _ _ (by decide) (by decide) (by decide)
    (rendD_num 2 "16" (by decide)) h6d
  have h6b := rendMs_cons (RendD 2) "\n                " "sampleRateHertz" " "
    (Json.num "24000".data) ("24000".data) _ _ _ (by decide) (by decide) (by decide)
    (rendD_num 2 "24000" (by decide)) h6c
  have h6 := rendMs_cons (RendD 2) "\n                " "mediaType" " "
    (Json.str "audio/lpcm".data) (strRend "audio/lpcm") _ _ _ (by decide) (by decide)
    (by decide) (rendD_str 2 "audio/lpcm" (by decide)) h6b
  have htu := rendMs_last (RendD 2) "\n                " "mediaType" " " "\n                "
    (Json.str "application/json".data) (strRend "application/json") (by decide) (by decide)
    (by decide) (rendD_str 2 "application/json" (by decide)) (by decide)
  have htc := rendMs_last (RendD 2) "\n                " "tools" " " "\n                "
    (Json.arr []) (lbrack :: [rbrack]) (by decide) (by decide) (by decide)
    (rendD_arrNil 1) (by decide)
  have h3e := rendMs_last (RendD 3) "\n            " "toolConfiguration" " " "\n            "
    _ _ (by decide) (by decide) (by decide) (rendD_obj 2 _ _ htc) (by decide)
  have h3d := rendMs_cons (RendD 3) "\n            " "toolUseOutputConfiguration" " "
    _ _ _ _ _ (by decide) (by decide) (by decide) (rendD_obj 2 _ _ htu) h3e
  have h3c := rendMs_cons (RendD 3) "\n            " "audioOutputConfiguration" " "
    _ _ _ _ _ (by decide) (by decide) (by decide) (rendD_obj 2 _ _ h6) h3d
  have h3b := rendMs_cons (RendD 3) "\n            " "textOutputConfiguration" " "
    _ _ _ _ _ (by decide) (by decide) (by decide) (rendD_obj 2 _ _ htx) h3c
  have h3 := rendMs_cons (RendD 3) "\n            " "promptName" " "
    (Json.str p.data) (strRend p) _ _ _ (by decide) (by decide) (by decide)
    (rendD_str 3 p hp) h3b
  have h2 := rendMs_last (RendD 4) "\n            " "promptStart" " " "\n        "
    _ _ (by decide) (by decide) (by decide) (rendD_obj 3 _ _ h3) (by decide)
  have h1 := rendMs_last (RendD 5) "\n        " "event" " " "\n    "
    _ _ (by decide) (by decide) (by decide) (rendD_obj 4 _ _ h2) (by decide)
  have hfin := rendD_obj 5 _ _ h1
  have hA : ("\x7b\n        \"event\": \x7b\n            \"promptStart\": \x7b\n            \"promptName\": \"" : String).data
      = [lbrace] ++ "\n        ".data ++ [qchar] ++ "event".data ++ [qchar] ++ [':'] ++
        " ".data ++ [lbrace] ++ "\n            ".data ++ [qchar] ++ "promptStart".data ++
        [qchar] ++ [':'] ++ " ".data ++ [lbrace] ++ "\n            ".data ++ [qchar] ++
        "promptName".data ++ [qchar] ++ [':'] ++ " ".data ++ [qchar] := by decide
  have hB : ("\",\n            \"textOutputConfiguration\": \x7b\n                \"mediaType\": \"text/plain\"\n                \x7d,\n            \"audioOutputConfiguration\": \x7b\n                \"mediaType\": \"audio/lpcm\",\n                \"sampleRateHertz\": 24000,\n                \"sampleSizeBits\": 16,\n                \"channelCount\": 1,\n                \"voiceId\": \"" : String).data
      = [qchar] ++ [','] ++ "\n            ".data ++ [qchar] ++
        "textOutputConfiguration".data ++ [qchar] ++ [':'] ++ " ".data ++ [lbrace] ++
        "\n                ".data ++ [qchar] ++ "mediaType".data ++ [qchar] ++ [':'] ++
        " ".data ++ [qchar] ++ "text/plain".data ++ [qchar] ++ "\n                ".data ++
        [rbrace] ++ [','] ++ "\n            ".data ++ [qchar] ++
        "audioOutputConfiguration".data ++ [qchar] ++ [':'] ++ " ".data ++ [lbrace] ++
        "\n                ".data ++ [qchar] ++ "mediaType".data ++ [qchar] ++ [':'] ++
        " ".data ++ [qchar] ++ "audio/lpcm".data ++ [qchar] ++ [','] ++
        "\n                ".data ++ [qchar] ++ "sampleRateHertz".data ++ [qchar] ++ [':'] ++
        " ".data ++ "24000".data ++ [','] ++ "\n                ".data ++ [qchar] ++
        "sampleSizeBits".data ++ [qchar] ++ [':'] ++ " ".data ++ "16".data ++ [','] ++
        "\n                ".data ++ [qchar] ++ "channelCount".data ++ [qchar] ++ [':'] ++
        " ".data ++ "1".data ++ [','] ++ "\n                ".data ++ [qchar] ++
        "voiceId".data ++ [qchar] ++ [':'] ++ " ".data ++ [qchar] := by decide
  have hC : ("\",\n                \"encoding\": \"base64\",\n                \"audioType\": \"SPEECH\"\n                \x7d,\n            \"toolUseOutputConfiguration\": \x7b\n                \"mediaType\": \"application/json\"\n                \x7d,\n            \"toolConfiguration\": \x7b\n                \"tools\": []\n                \x7d\n            \x7d\n        \x7d\n    \x7d" : String).data
      = [qchar] ++ [','] ++ "\n                ".data ++ [qchar] ++ "encoding".data ++
        [qchar] ++ [':'] ++ " ".data ++ [qchar] ++ "base64".data ++ [qchar] ++ [','] ++
        "\n                ".data ++ [qchar] ++ "audioType".data ++ [qchar] ++ [':'] ++
        " ".data ++ [qchar] ++ "SPEECH".data ++ [qchar] ++ "\n                ".data ++
        [rbrace] ++ [','] ++ "\n            ".data ++ [qchar] ++
        "toolUseOutputConfiguration".data ++ [qchar] ++ [':'] ++ " ".data ++ [lbrace] ++
        "\n                ".data ++ [qchar] ++ "mediaType".data ++ [qchar] ++ [':'] ++
        " ".data ++ [qchar] ++ "application/json".data ++ [qchar] ++
        "\n                ".data ++ [rbrace] ++ [','] ++ "\n            ".data ++ [qchar] ++
        "toolConfiguration".data ++ [qchar] ++ [':'] ++ " ".data ++ [lbrace] ++
        "\n                ".data ++ [qchar] ++ "tools".data ++ [qchar] ++ [':'] ++
        " ".data ++ [lbrack] ++ [rbrack] ++ "\n                ".data ++ [rbrace] ++
        "\n            ".data ++ [rbrace] ++ "\n        ".data ++ [rbrace] ++
        "\n    ".data ++ [rbrace] := by decide
  simp only [START_PROMPT_EVENT, String.data_append, hA, hB, hC,
    List.append_assoc, List.singleton_append, List.cons_append, List.nil_append]
  simpa only [strRend, List.append_assoc, List.singleton_append, List.cons_append,
    List.nil_append] using hfin

theorem close_result_inactive (net : Nat → Bool) (s : MgrState) :
    (close net s).isActive = false := by
  by_cases h : s.isActive = false
  · simp [close, h]
  · simp only [close, h, if_false]
    simp [send_audio_content_end_event, send_prompt_end_event, send_session_end_event]
    split <;> simp

theorem close_inactive_noop (net : Nat → Bool) (s : MgrState) (h : s.isActive = false) :
    close net s = s := by
  simp [close, h]

/-- Claim C1 counterexample.  Start a fresh session on a transport whose
open succeeds but on which every subsequent send raises: initialize_stream
returns without surfacing any error (second component false), leaves the
session Active, and not one of the five initialization events was
transmitted on the wire — contradicting the claim that Active is reached
only after all five events are sent successfully and that a send failure
before Active is surfaced to the caller. -/
theorem C1_counterexample :
    (initialize_stream true netBad mgr0).2 = false ∧
    (initialize_stream true netBad mgr0).1.isActive = true ∧
    (initialize_stream true netBad mgr0).1.wire = [] :=
  ⟨rfl, rfl, rfl⟩

/-- Claim C1, amended: initialize_stream marks the session Active as soon
as the transport open succeeds, before any of the five initialization
events is sent; the five events are then attempted in order, transmitted
exactly when the transport accepts them and silently recorded as logged
errors otherwise, and the session stays Active and no error is surfaced
regardless of those send failures.  Only a transport-open failure is
surfaced to the caller, and then the session is not Active. -/
theorem C1_theorem (net : Nat → Bool) (s : MgrState) :
    initialize_stream false net s = ({ s with isActive := false }, true) ∧
    (initialize_stream true net s).2 = false ∧
    (initialize_stream true net s).1.isActive = true ∧
    (initialize_stream true net s).1.wire = s.wire ++ okFilter net s.sendCount (initEvents s) ∧
    (initialize_stream true net s).1.errs = s.errs ++ badFilter net s.sendCount (initEvents s) := by
  have hrun := sendSeq_run net (initEvents s)
    { s with streamOpen := true, isActive := true } (by simp) (by simp)
  have heq : initialize_stream true net s =
      ((initEvents s).foldl (send_raw_event net) { s with streamOpen := true, isActive := true },
        false) := by
    simp [initialize_stream]
  rw [heq, hrun]
  exact ⟨by simp [initialize_stream], rfl, rfl, rfl, rfl⟩

/-- Claim C2 evaluation (code bug).  close() on an Active session clears
is_active at line 409 before calling the three terminal-event senders
(lines 413-415); each of those senders, and send_raw_event itself, returns
early when is_active is false, so none of the three terminal events is
even attempted: the wire, the failed-send log and the send counter are all
unchanged by close. -/
theorem C2_theorem (net : Nat → Bool) (s : MgrState) (h : s.isActive = true) :
    (close net s).wire = s.wire ∧ (close net s).errs = s.errs ∧
    (close net s).sendCount = s.sendCount := by
  simp only [close, h]
  simp [send_audio_content_end_event, send_prompt_end_event, send_session_end_event]
  split <;> simp

/-- Witness for C2_theorem at a concrete Active session on a healthy
transport. -/
theorem C2_witness :
    (close netOk mgrActive).wire = mgrActive.wire ∧
    (close netOk mgrActive).errs = mgrActive.errs ∧
    (close netOk mgrActive).sendCount = mgrActive.sendCount :=
  C2_theorem netOk mgrActive rfl

/-- Claim C6: close() is idempotent — a second close() observes is_active
already false and returns immediately, so it changes nothing (no events,
no errors, no state change), and close() on an already-closed session is
a no-op. -/
theorem C6_theorem (net : Nat → Bool) (s : MgrState) :
    close net (close net s) = close net s ∧
    (s.isActive = false → close net s = s) :=
  ⟨close_inactive_noop net (close net s) (close_result_inactive net s),
   fun h => close_inactive_noop net s h⟩

/-- Witness for C6_theorem: double close equals single close on a concrete
Active session, and close on a concrete inactive session is the identity. -/
theorem C6_witness :
    close netOk (close netOk mgrActive) = close netOk mgrActive ∧
    close netOk mgr0 = mgr0 :=
  ⟨(C6_theorem netOk mgrActive).1, (C6_theorem netOk mgr0).2 rfl⟩

/-- Claim C7 counterexample.  Calling send_audio_content_start_event twice
in a row on an Active session with a healthy transport signals no error
whatsoever (the failed-send log stays empty and nothing is raised — the
function has no guard at lines 264-267) and transmits the identical audio
content-start event twice, contradicting the claim that the second call
signals an error rather than silently resending. -/
theorem C7_counterexample :
    (send_audio_content_start_event netOk (send_audio_content_start_event netOk mgrActive)).errs
        = [] ∧
    (send_audio_content_start_event netOk (send_audio_content_start_event netOk mgrActive)).wire
        = [CONTENT_START_EVENT "p" "a", CONTENT_START_EVENT "p" "a"] :=
  ⟨rfl, rfl⟩

/-- Claim C7, amended: a second send_audio_content_start_event without an
intervening endAudioContent silently resends the identical audio
content-start event; no error is signalled to the caller. -/
theorem C7_theorem (net : Nat → Bool) (s : MgrState)
    (hso : s.streamOpen = true) (hia : s.isActive = true)
    (h1 : net s.sendCount = true) (h2 : net (s.sendCount + 1) = true) :
    send_audio_content_start_event net (send_audio_content_start_event net s) =
      { s with sendCount := s.sendCount + 2,
               wire := s.wire ++ [CONTENT_START_EVENT s.promptName s.audioContentName,
                                  CONTENT_START_EVENT s.promptName s.audioContentName] } := by
  simp [send_audio_content_start_event, send_raw_event, hso, hia, h1, h2]

/-- Witness for C7_theorem on a concrete Active session. -/
theorem C7_witness :
    send_audio_content_start_event netOk (send_audio_content_start_event netOk mgrActive) =
      { mgrActive with sendCount := mgrActive.sendCount + 2,
                       wire := mgrActive.wire ++
                         [CONTENT_START_EVENT mgrActive.promptName mgrActive.audioContentName,
                          CONTENT_START_EVENT mgrActive.promptName mgrActive.audioContentName] } :=
  C7_theorem netOk mgrActive rfl rfl rfl rfl

/-- Claim C9: send_raw_event on an uninitialized stream or inactive
session returns normally with no state change at all (nothing transmitted,
nothing logged as a failed send, counter untouched) — lines 241-243 — and
consequently the derived send operations (audio chunks via
handle_audio_input, the audio content-start sender, and, on an inactive
session, the three end-event senders) are silent no-ops as well. -/
theorem C9_theorem (net : Nat → Bool) (s : MgrState) (ev : String) (bs : List Nat)
    (h : s.streamOpen = false ∨ s.isActive = false) :
    send_raw_event net s ev = s ∧
    handle_audio_input net s bs = s ∧
    send_audio_content_start_event net s = s ∧
    (s.isActive = false →
      send_audio_content_end_event net s = s ∧
      send_prompt_end_event net s = s ∧
      send_session_end_event net s = s) := by
  have hraw : ∀ e, send_raw_event net s e = s := by
    intro e; simp [send_raw_event, h]
  refine ⟨hraw ev, ?_, hraw _, ?_⟩
  · by_cases hbs : bs = [] <;> simp [handle_audio_input, hbs, hraw]
  · intro hia
    simp [send_audio_content_end_event, send_prompt_end_event, send_session_end_event, hia]

/-- Witness for C9_theorem on a concrete fresh (uninitialized, inactive)
manager. -/
theorem C9_witness :
    send_raw_event netOk mgr0 "x" = mgr0 ∧
    handle_audio_input netOk mgr0 [1, 2, 3] = mgr0 ∧
    send_audio_content_start_event netOk mgr0 = mgr0 ∧
    send_session_end_event netOk mgr0 = mgr0 := by
  have h := C9_theorem netOk mgr0 "x" [1, 2, 3] (Or.inl rfl)
  exact ⟨h.1, h.2.1, h.2.2.1, (h.2.2.2 rfl).2.2⟩

theorem pbRun_cons (s : PbState) (a : PbAction) (acts : List PbAction) :
    pbRun s (a :: acts) = pbRun (pbStep s a) acts := rfl

theorem pbRun_noBarge (acts : List PbAction) :
    ∀ s : PbState, s.bargeIn = false → (∀ a ∈ acts, postFlushAct a) →
    (pbRun s acts).bargeIn = false ∧
    (pbRun s acts).discarded = s.discarded ∧
    (pbRun s acts).isStreaming = s.isStreaming ∧
    (pbRun s acts).deviceActive = s.deviceActive ∧
    (s.isStreaming = true → s.deviceActive = true →
      ∃ t, (pbRun s acts).played = s.played ++ t ∧
           t ++ (pbRun s acts).queue = s.queue ++ enqList acts) := by
  induction acts with
  | nil =>
    intro s hb _
    exact ⟨hb, rfl, rfl, rfl, fun _ _ => ⟨[], by simp [pbRun], by simp [pbRun, enqList]⟩⟩
  | cons a rest ih =>
    intro s hb hpost
    have hpa : postFlushAct a := hpost a (by simp)
    have hrest : ∀ x ∈ rest, postFlushAct x := fun x hx => hpost x (by simp [hx])
    rcases hpa with ⟨b, rfl⟩ | rfl
    · -- dispatcher enqueue
      rw [pbRun_cons]
      have h2 := ih { s with queue := s.queue ++ [b] } hb hrest
      refine ⟨h2.1, h2.2.1, h2.2.2.1, h2.2.2.2.1, ?_⟩
      intro hstr hdev
      obtain ⟨t, hp, hq⟩ := h2.2.2.2.2 hstr hdev
      exact ⟨t, hp, by simpa [enqList, List.append_assoc] using hq⟩
    · -- one successful playback iteration
      rw [pbRun_cons]
      by_cases hstr : s.isStreaming = true
      · have hstep : pbStep s (PbAction.iter true) = pbIter s true := by
          simp [pbStep, hstr]
        rw [hstep]
        cases hq : s.queue with
        | nil =>
          have : pbIter s true = s := by simp [pbIter, iterBody, hb, hq]
          rw [this]
          have h2 := ih s hb hrest
          refine ⟨h2.1, h2.2.1, h2.2.2.1, h2.2.2.2.1, ?_⟩
          intro hstr2 hdev
          obtain ⟨t, hp, hqq⟩ := h2.2.2.2.2 hstr2 hdev
          exact ⟨t, hp, by simpa [hq, enqList] using hqq⟩
        | cons b rest2 =>
          by_cases hdev : s.deviceActive = true
          · have : pbIter s true =
                { s with queue := rest2, played := s.played ++ [b] } := by
              simp [pbIter, iterBody, hb, hq, hstr, hdev]
            rw [this]
            have h2 := ih { s with queue := rest2, played := s.played ++ [b] } hb hrest
            refine ⟨h2.1, h2.2.1, h2.2.2.1, h2.2.2.2.1, ?_⟩
            intro hstr2 hdev2
            obtain ⟨t, hp, hqq⟩ := h2.2.2.2.2 (by simpa using hstr2) (by simpa using hdev2)
            refine ⟨b :: t, by simpa [List.append_assoc] using hp, ?_⟩
            simp only [List.cons_append, hqq, hq, enqList, List.filterMap_cons]
          · have : pbIter s true = { s with queue := rest2 } := by
              simp [pbIter, iterBody, hb, hq, hstr, hdev]
            rw [this]
            have h2 := ih { s with queue := rest2 } hb hrest
            exact ⟨h2.1, h2.2.1, h2.2.2.1, h2.2.2.2.1, fun _ hdev2 => absurd hdev2 hdev⟩
      · have hstep : pbStep s (PbAction.iter true) = s := by
          simp [pbStep, hstr]
        rw [hstep]
        have h2 := ih s hb hrest
        refine ⟨h2.1, h2.2.1, h2.2.2.1, h2.2.2.2.1, ?_⟩
        intro hstr2 _
        exact absurd hstr2 hstr

/-- Claim C3: when the playback loop observes the barge-in flag (lines
88-98), the flush iteration discards exactly the buffers queued before it,
empties the queue, clears the flag and plays nothing; and over any
continuation made of dispatcher enqueues and successful playback
iterations (the single barge-in marker has already been consumed), nothing
further is ever discarded, and the buffers played after the flush are
precisely a front segment of the buffers enqueued after the flush, in
enqueue order. -/
theorem C3_theorem (s : PbState) (acts : List PbAction)
    (hstr : s.isStreaming = true) (hdev : s.deviceActive = true)
    (hbarge : s.bargeIn = true) (hpost : ∀ a ∈ acts, postFlushAct a) :
    (pbStep s (PbAction.iter true)).discarded = s.discarded ++ s.queue ∧
    (pbStep s (PbAction.iter true)).queue = [] ∧
    (pbStep s (PbAction.iter true)).bargeIn = false ∧
    (pbStep s (PbAction.iter true)).played = s.played ∧
    (pbRun (pbStep s (PbAction.iter true)) acts).discarded = s.discarded ++ s.queue ∧
    ∃ t, (pbRun (pbStep s (PbAction.iter true)) acts).played = s.played ++ t ∧
         t ++ (pbRun (pbStep s (PbAction.iter true)) acts).queue = enqList acts := by
  have hflush : pbStep s (PbAction.iter true) =
      { s with queue := [], bargeIn := false, discarded := s.discarded ++ s.queue } := by
    simp [pbStep, hstr, pbIter, iterBody, hbarge]
  rw [hflush]
  have h2 := pbRun_noBarge acts
    { s with queue := [], bargeIn := false, discarded := s.discarded ++ s.queue }
    (by simp) hpost
  refine ⟨rfl, rfl, rfl, rfl, by simpa using h2.2.1, ?_⟩
  obtain ⟨t, hp, hq⟩ := h2.2.2.2.2 (by simpa using hstr) (by simpa using hdev)
  exact ⟨t, by simpa using hp, by simpa using hq⟩

/-- Witness for C3_theorem: two buffers queued at the flush, then an
enqueue, a play iteration and another enqueue after it. -/
theorem C3_witness :
    (pbStep pb0 (PbAction.iter true)).discarded = pb0.discarded ++ pb0.queue ∧
    (pbStep pb0 (PbAction.iter true)).queue = [] ∧
    (pbStep pb0 (PbAction.iter true)).bargeIn = false ∧
    (pbStep pb0 (PbAction.iter true)).played = pb0.played ∧
    (pbRun (pbStep pb0 (PbAction.iter true))
        [PbAction.enq [3], PbAction.iter true, PbAction.enq [4]]).discarded
      = pb0.discarded ++ pb0.queue ∧
    ∃ t, (pbRun (pbStep pb0 (PbAction.iter true))
            [PbAction.enq [3], PbAction.iter true, PbAction.enq [4]]).played
          = pb0.played ++ t ∧
         t ++ (pbRun (pbStep pb0 (PbAction.iter true))
                 [PbAction.enq [3], PbAction.iter true, PbAction.enq [4]]).queue
          = enqList [PbAction.enq [3], PbAction.iter true, PbAction.enq [4]] :=
  C3_theorem pb0 [PbAction.enq [3], PbAction.iter true, PbAction.enq [4]]
    rfl rfl rfl (by decide)

/-- Claim C10: a device write error during playback of a single buffer
makes the iteration body raise, and the enclosing except handler (lines
134-138) catches it, logs it, and lets the loop continue with the
remaining interleaved actions; streaming stays enabled, so no single
playback error terminates the playback pipeline. -/
theorem C10_theorem (s : PbState) (acts : List PbAction) (b : List Nat)
    (rest : List (List Nat)) (hstr : s.isStreaming = true) (hdev : s.deviceActive = true)
    (hbarge : s.bargeIn = false) (hq : s.queue = b :: rest) :
    (iterBody s false).2 = true ∧
    pbRun s (PbAction.iter false :: acts) =
      pbRun { s with queue := rest, errLog := s.errLog + 1 } acts ∧
    ({ s with queue := rest, errLog := s.errLog + 1 } : PbState).isStreaming = true := by
  have hbody : iterBody s false = ({ s with queue := rest }, true) := by
    simp [iterBody, hbarge, hq, hstr, hdev]
  refine ⟨by rw [hbody], ?_, by simpa using hstr⟩
  rw [pbRun_cons]
  have : pbStep s (PbAction.iter false) = { s with queue := rest, errLog := s.errLog + 1 } := by
    simp [pbStep, hstr, pbIter, hbody]
  rw [this]

/-- Claim C4 counterexample.  Encoding a textInput event whose content is
a single double-quote character — a perfectly valid text content for the
claim, which quantifies over arbitrary text — produces malformed JSON
(the templates splice values without escaping, line 203 formats the
system prompt straight into TEXT_INPUT_EVENT), and decoding fails instead
of recovering the content field. -/
theorem C4_counterexample :
    decode (encodeEvent EventKind.textInput fieldsQuote) = none := rfl

/-- Claim C4, amended: for every event kind and every choice of required
field values whose characters are splice-safe (no double quote, no
backslash, no control characters), encoding through the codec templates
and decoding the resulting bytes as JSON recovers, for every required
field, exactly the chosen value (the decoded document equals the
schema-shaped document carrying those values, member for member). -/
theorem C4_theorem (k : EventKind) (F : Fields) (h : safeFields F) :
    decode (encodeEvent k F) = some (expectedJson k F) := by
  obtain ⟨hp, hc, hco, hr, hv⟩ := h
  cases k with
  | sessionStart => rfl
  | promptStart =>
    simp only [encodeEvent, expectedJson]
    exact decode_of_rend (rend_promptStart F.promptName F.voiceId hp hv)
  | contentStartText =>
    simp only [encodeEvent, expectedJson]
    exact decode_of_rend (rend_contentStartText F.promptName F.contentName F.role hp hc hr)
  | textInput =>
    simp only [encodeEvent, expectedJson]
    exact decode_of_rend (rend_textInput F.promptName F.contentName F.content hp hc hco)
  | contentStartAudio =>
    simp only [encodeEvent, expectedJson]
    exact decode_of_rend (rend_contentStartAudio F.promptName F.contentName hp hc)
  | audioInput =>
    simp only [encodeEvent, expectedJson]
    exact decode_of_rend (rend_audioInput F.promptName F.contentName F.content hp hc hco)
  | contentEnd =>
    simp only [encodeEvent, expectedJson]
    exact decode_of_rend (rend_contentEnd F.promptName F.contentName hp hc)
  | promptEnd =>
    simp only [encodeEvent, expectedJson]
    exact decode_of_rend (rend_promptEnd F.promptName hp)
  | sessionEnd => rfl

/-- Witness for C4_theorem at concrete safe field values for a textInput
event. -/
theorem C4_witness :
    decode (encodeEvent EventKind.textInput fieldsEx) =
      some (expectedJson EventKind.textInput fieldsEx) :=
  C4_theorem EventKind.textInput fieldsEx (by decide)

/-- Claim C5 counterexample.  End-of-stream arrives while the session is
Active: the dispatcher loop does exit, but the session is NOT marked
inactive (is_active stays true — no line of _process_responses ever
clears it), and the condition is surfaced through on_completed, not as an
error — contradicting both parts of the claim. -/
theorem C5_counterexample :
    (runLoop disp0 [Recv.eos]).isActive = true ∧
    (runLoop disp0 [Recv.eos]).emits = [Emission.onCompleted] :=
  ⟨rfl, rfl⟩

/-- Claim C5, amended: when the transport signals end-of-stream or a
fatal receive error while the session is Active, the dispatcher loop
exits immediately (any further inbound results are ignored); a fatal
receive error is reported asynchronously via output_subject.on_error,
while end-of-stream is reported via on_completed; in both cases is_active
is left unchanged (still true) — the loop itself never marks the session
inactive. -/
theorem C5_theorem (s : DispState) (tail : List Recv)
    (hia : s.isActive = true) (hss : s.subjectStopped = false) :
    runLoop s (Recv.eos :: tail) =
      { s with emits := s.emits ++ [Emission.onCompleted], subjectStopped := true } ∧
    runLoop s (Recv.fatal :: tail) =
      { s with emits := s.emits ++ [Emission.onError], subjectStopped := true } ∧
    (runLoop s (Recv.eos :: tail)).isActive = true ∧
    (runLoop s (Recv.fatal :: tail)).isActive = true := by
  have h1 : runLoop s (Recv.eos :: tail) =
      { s with emits := s.emits ++ [Emission.onCompleted], subjectStopped := true } := by
    simp [runLoop, hia, finalizeD, emitD, hss]
  have h2 : runLoop s (Recv.fatal :: tail) =
      { s with emits := s.emits ++ [Emission.onError], subjectStopped := true } := by
    simp [runLoop, hia, finalizeD, emitD, hss]
  exact ⟨h1, h2, by rw [h1]; exact hia, by rw [h2]; exact hia⟩

/-- Witness for C5_theorem at the concrete fresh Active dispatcher
state. -/
theorem C5_witness :
    runLoop disp0 [Recv.eos] =
      { disp0 with emits := disp0.emits ++ [Emission.onCompleted], subjectStopped := true } ∧
    runLoop disp0 [Recv.fatal] =
      { disp0 with emits := disp0.emits ++ [Emission.onError], subjectStopped := true } ∧
    (runLoop disp0 [Recv.eos]).isActive = true ∧
    (runLoop disp0 [Recv.fatal]).isActive = true :=
  C5_theorem disp0 [] rfl rfl

/-- Claim C8 counterexample.  An inbound contentStart without the
optional additionalModelFields leaves displayAssistantText untouched: on
a state where it is currently true, the claim requires it to become
false, but the code (lines 349-358 run only when the field is present)
keeps it true. -/
theorem C8_counterexample :
    processEvent dispShow (InEvent.contentStart "ASSISTANT" none) =
      ({ dispShow with role := some "ASSISTANT" }, false) ∧
    ({ dispShow with role := some "ASSISTANT" } : DispState).displayAssistantText = true :=
  ⟨rfl, rfl⟩

/-- Claim C8, amended: on an inbound contentStart the dispatcher records
the role, and sets displayAssistantText only when additionalModelFields
is present and parses as a JSON object — then to true exactly when the
generationStage member is present and equals the string SPECULATIVE, and
to false otherwise; when the field is absent, or present but not valid
JSON, displayAssistantText keeps its previous value. -/
theorem C8_theorem (s : DispState) (r : String) :
    processEvent s (InEvent.contentStart r none) = ({ s with role := some r }, false) ∧
    (∀ str, decode str = none →
      processEvent s (InEvent.contentStart r (some str)) = ({ s with role := some r }, false)) ∧
    (∀ str fields, decode str = some (Json.obj fields) →
      processEvent s (InEvent.contentStart r (some str)) =
        ({ s with role := some r, displayAssistantText := genStageIsSpeculative fields },
          false)) ∧
    (∀ fields, genStageIsSpeculative fields = true ↔
      lookupJ fields ("generationStage".data) = some (Json.str ("SPECULATIVE".data))) := by
  refine ⟨rfl, ?_, ?_, ?_⟩
  · intro str hdec; simp [processEvent, hdec]
  · intro str fields hdec; simp [processEvent, hdec]
  · intro fields
    unfold genStageIsSpeculative
    cases h : lookupJ fields ("generationStage".data) with
    | none => simp
    | some j => cases j <;> simp_all

/-- Witness for C8_theorem: concrete contentStart events with the field
absent, with unparseable contents, and with a speculative marker. -/
theorem C8_witness :
    processEvent disp0 (InEvent.contentStart "ASSISTANT" none) =
      ({ disp0 with role := some "ASSISTANT" }, false) ∧
    processEvent disp0 (InEvent.contentStart "ASSISTANT" (some "notjson")) =
      ({ disp0 with role := some "ASSISTANT" }, false) ∧
    processEvent disp0
        (InEvent.contentStart "ASSISTANT" (some "\x7b\"generationStage\": \"SPECULATIVE\"\x7d")) =
      ({ disp0 with
          role := some "ASSISTANT"
          displayAssistantText :=
            genStageIsSpeculative [("generationStage".data, Json.str ("SPECULATIVE".data))] },
        false) :=
  ⟨(C8_theorem disp0 "ASSISTANT").1,
   (C8_theorem disp0 "ASSISTANT").2.1 "notjson" rfl,
   (C8_theorem disp0 "ASSISTANT").2.2.1 "\x7b\"generationStage\": \"SPECULATIVE\"\x7d"
     [("generationStage".data, Json.str ("SPECULATIVE".data))] rfl⟩

/-- Witness for C10_theorem on a concrete streaming state whose device
write raises. -/
theorem C10_witness :
    (iterBody pb1 false).2 = true ∧
    pbRun pb1 [PbAction.iter false] =
      pbRun { pb1 with queue := [[2]], errLog := pb1.errLog + 1 } [] ∧
    ({ pb1 with queue := [[2]], errLog := pb1.errLog + 1 } : PbState).isStreaming = true :=
  C10_theorem pb1 [] [1] [[2]] rfl rfl rfl rfl

end Nova
